import Mathlib

/-!
# bd_image_resampler: masked resize and the deferred resampler

A shallow embedding of `src/ResamplingHelpers.h` and
`src/DeferredImageResampler.h`.

The JUCE / gin types the code is written against are modelled as plain data:
an image is a nullable bitmap of colours, the graphics context is the list of
drawing calls made on it, the thread pool is the list of its jobs.  Library
functions whose result the module does not determine (`gin::applyResize`,
`juce::Image::rescaled`, `juce::approximatelyEqual`, `Colour::withAlpha`, the
desktop's display lookup) are fields of `Toolkit` and stay uninterpreted, and
so does the narrowing of a number to `float`: doubles and floats are rational
numbers here, and `Toolkit.toFloat` says which float a number becomes.
Calls to `juce::Logger::writeToLog` and the repaint request posted at the end
of a job write nothing the module reads back and are left out.

Two threads act on the state.  A callback on the message thread (the
constructor's deferred attempt, a move or resize notification, a timer
callback, a destructor) is one event.  `runJob` on the pool's thread is cut
at its polls of `shouldExit` and at its writes into stretches, and one stretch
is one event; events of the two threads interleave freely.  The clock of the
message thread only serves the timer: a callback takes no time.
-/

namespace BogrenDigital.ImageResampler

/-! ## Colours, rectangles, images -/

/-- A `juce::Colour`: alpha, red, green, blue. -/
structure Colour where
  alpha : Nat
  red : Nat
  green : Nat
  blue : Nat
deriving DecidableEq, Repr

/-- The value of `juce::Colour()`, which is transparent black. -/
def Colour.default : Colour := ⟨0, 0, 0, 0⟩

/-- Reads `Colour::getAlpha`. -/
def Colour.getAlpha (c : Colour) : Nat := c.alpha

/-- The constant `juce::Colours::transparentBlack` (0x00000000). -/
def Colours.transparentBlack : Colour := ⟨0, 0, 0, 0⟩

/-- The constant `juce::Colours::darkgrey` (0xff555555). -/
def Colours.darkgrey : Colour := ⟨255, 85, 85, 85⟩

/-- The constant `juce::Colours::white` (0xffffffff). -/
def Colours.white : Colour := ⟨255, 255, 255, 255⟩

/-- A `juce::Point`. -/
structure Point (α : Type) where
  x : α
  y : α
deriving DecidableEq, Repr

/-- A `juce::Rectangle`: position of the top-left corner, width, height. -/
structure Rectangle (α : Type) where
  x : α
  y : α
  w : α
  h : α
deriving DecidableEq, Repr

/-- Reads `Rectangle::getWidth`. -/
def Rectangle.getWidth {α : Type} (r : Rectangle α) : α := r.w

/-- The test `Rectangle<int>::isEmpty`: no area. -/
def Rectangle.isEmpty (r : Rectangle Int) : Bool := decide (r.w ≤ 0 ∨ r.h ≤ 0)

/-- The point `Rectangle<int>::getCentre`. -/
def Rectangle.getCentre (r : Rectangle Int) : Point Int := ⟨r.x + r.w / 2, r.y + r.h / 2⟩

/-- The test `Rectangle<int>::contains (x, y)`. -/
def Rectangle.contains (r : Rectangle Int) (x y : Int) : Bool :=
  decide (r.x ≤ x ∧ r.y ≤ y ∧ x < r.x + r.w ∧ y < r.y + r.h)

/-- The enum `juce::Image::PixelFormat`. -/
inductive PixelFormat where
  | UnknownFormat
  | RGB
  | ARGB
  | SingleChannel
deriving DecidableEq, Repr

/-- The shared pixel data behind a non-null `juce::Image`. -/
structure ImagePixelData where
  pixelFormat : PixelFormat
  width : Int
  height : Int
  pixels : Int → Int → Colour

/-- A `juce::Image`: a possibly null reference to pixel data. -/
abbrev Image := Option ImagePixelData

namespace Image

/-- The value of `juce::Image()`: the null image. -/
def null : Image := none

/-- The test `Image::isNull`. -/
def isNull (img : Image) : Bool := img.isNone

/-- The test `Image::isValid`. -/
def isValid (img : Image) : Bool := img.isSome

/-- Reads `Image::getWidth`: 0 for the null image. -/
def getWidth : Image → Int
  | none => 0
  | some d => d.width

/-- Reads `Image::getHeight`: 0 for the null image. -/
def getHeight : Image → Int
  | none => 0
  | some d => d.height

/-- Reads `Image::getBounds`. -/
def getBounds (img : Image) : Rectangle Int := ⟨0, 0, img.getWidth, img.getHeight⟩

/-- The constructor `Image (format, width, height, clearImage)`; it is only
called with `clearImage = true`, which zeroes the pixel memory. -/
def create (format : PixelFormat) (width height : Int) (_clearImage : Bool) : Image :=
  some ⟨format, width, height, fun _ _ => Colours.transparentBlack⟩

/-- Reads `Image::getPixelAt`: the colour at an in-range position, `Colour()`
anywhere else. -/
def getPixelAt (img : Image) (x y : Int) : Colour :=
  match img with
  | none => Colour.default
  | some d =>
    if 0 ≤ x ∧ x < d.width ∧ 0 ≤ y ∧ y < d.height then d.pixels x y else Colour.default

/-- The call `Image::setPixelAt`: writes an in-range position, does nothing
anywhere else.  The bitmap is taken to hold the colour that was written. -/
def setPixelAt (img : Image) (x y : Int) (c : Colour) : Image :=
  match img with
  | none => none
  | some d =>
    if 0 ≤ x ∧ x < d.width ∧ 0 ≤ y ∧ y < d.height then
      some { d with pixels := fun u v => if u = x ∧ v = y then c else d.pixels u v }
    else some d

/-- The call `Image::clear (area, colour)`: every pixel of the area takes the
colour. -/
def clear (img : Image) (area : Rectangle Int) (c : Colour) : Image :=
  match img with
  | none => none
  | some d =>
    some { d with pixels := fun u v => if area.contains u v then c else d.pixels u v }

end Image

/-- The enum `gin::ResizeAlgorirm`. -/
inductive ResizeAlgorirm where
  | avir
  | lanczos
deriving DecidableEq, Repr

/-- The enum `juce::Graphics::ResamplingQuality`. -/
inductive ResamplingQuality where
  | lowResamplingQuality
  | mediumResamplingQuality
  | highResamplingQuality
deriving DecidableEq, Repr

/-- A `juce::Displays::Display`, of which only the scale is read. -/
structure Display where
  scale : Rat
deriving DecidableEq, Repr

/-- The library functions the module calls and does not define. -/
structure Toolkit where
  /-- The resize `gin::applyResize (img, width, height, algorithm)`. -/
  ginApplyResize : Image → Int → Int → ResizeAlgorirm → Image
  /-- The scaled copy `juce::Image::rescaled (width, height, quality)`. -/
  rescaled : Image → Int → Int → ResamplingQuality → Image
  /-- The comparison `juce::approximatelyEqual` on doubles. -/
  approximatelyEqual : Rat → Rat → Bool
  /-- The colour `Colour::withAlpha (float)`. -/
  withAlpha : Colour → Rat → Colour
  /-- The lookup `Displays::getDisplayForPoint`. -/
  getDisplayForPoint : Point Int → Option Display
  /-- The lookup `Displays::getDisplayForRect`. -/
  getDisplayForRect : Rectangle Int → Option Display
  /-- The conversion `static_cast<float>`: the `float` a number narrows to. -/
  toFloat : Rat → Rat

/-- The conversion `Rectangle<int>::toFloat`: each of the four integers is
cast to `float`. -/
def Rectangle.toFloat (T : Toolkit) (r : Rectangle Int) : Rectangle Rat :=
  ⟨T.toFloat r.x, T.toFloat r.y, T.toFloat r.w, T.toFloat r.h⟩

/-! ## ResamplingHelpers.h -/

/-- The loop `for (int i = 0; i < n; ++i) body (i)` threading a state. -/
def forLoop {σ : Type} (body : Int → σ → σ) : Nat → σ → σ
  | 0, s => s
  | n + 1, s => body n (forLoop body n s)

/-- The masked overload of `applyResize` (ResamplingHelpers.h, lines 5-43). -/
def applyResize (T : Toolkit) (img resamplingMask : Image) (width height : Int)
    (resizeAlgorirm : ResizeAlgorirm) : Image :=
  if width ≤ 0 ∨ height ≤ 0 ∨ img.isNull = true then
    Image.null
  else if resamplingMask.isNull = true then
    T.ginApplyResize img width height resizeAlgorirm
  else
    let highQualResampledImage := T.ginApplyResize img width height resizeAlgorirm
    let scaledDownMask :=
      T.rescaled resamplingMask width height ResamplingQuality.lowResamplingQuality
    let maskedImage := Image.create PixelFormat.ARGB highQualResampledImage.getWidth
      highQualResampledImage.getHeight true
    let maskedImage := maskedImage.clear maskedImage.getBounds Colours.transparentBlack
    forLoop (fun y maskedImage =>
      forLoop (fun x maskedImage =>
        if (scaledDownMask.getPixelAt x y).getAlpha > 0 then
          maskedImage.setPixelAt x y (highQualResampledImage.getPixelAt x y)
        else
          maskedImage) highQualResampledImage.getWidth.toNat maskedImage)
      highQualResampledImage.getHeight.toNat maskedImage

/-- The overload of `applyResize` without a mask (ResamplingHelpers.h, lines 45-53). -/
def applyResizeUnmasked (T : Toolkit) (img : Image) (width height : Int)
    (resizeAlgorirm : ResizeAlgorirm) : Image :=
  if width ≤ 0 ∨ height ≤ 0 ∨ img.isNull = true then
    Image.null
  else
    T.ginApplyResize img width height resizeAlgorirm

/-- The default value of the `resizeAlgorirm` parameter of both overloads. -/
def defaultResizeAlgorirm : ResizeAlgorirm := ResizeAlgorirm.lanczos

/-- The helper `isResamplingNeeded` (ResamplingHelpers.h, lines 55-58).  The
code dereferences the display it looks up; `none` stands for the call on a
rectangle for which the lookup gives the null pointer. -/
def isResamplingNeeded (T : Toolkit) (rect : Rectangle Int) : Option Bool :=
  match T.getDisplayForRect rect with
  | some display => some (decide (display.scale = 1))
  | none => none

/-! ## DeferredImageResampler.h: the wrapped component and the display lookup -/

/-- The top-level component, as far as `getComponentDisplay` reads it. -/
structure TopLevelComponent where
  isOnDesktop : Bool
  screenBounds : Rectangle Int
deriving DecidableEq, Repr

/-- The wrapped `juce::Component`, as far as the resampler reads it.  The host
toolkit owns these values; a move or resize notification brings a new one. -/
structure Component where
  width : Int
  height : Int
  /-- The named properties, read as doubles. -/
  properties : List (String × Rat)
  isShowing : Bool
  screenBounds : Rectangle Int
  parentMonitorArea : Rectangle Int
  topLevelComponent : Option TopLevelComponent
deriving DecidableEq, Repr

/-- Reads `Component::getLocalBounds`. -/
def Component.getLocalBounds (c : Component) : Rectangle Int := ⟨0, 0, c.width, c.height⟩

/-- The test `NamedValueSet::contains`. -/
def Component.propsContains (c : Component) (name : String) : Bool :=
  c.properties.any (fun kv => kv.1 == name)

/-- Reads a named property as a double (0 when it is absent). -/
def Component.prop (c : Component) (name : String) : Rat :=
  match c.properties.find? (fun kv => kv.1 == name) with
  | some kv => kv.2
  | none => 0

/-- The method `getFloatRect` (lines 96-109): with all four properties
present, each is read as a double and cast to `float`; otherwise the local
bounds are converted to `float`. -/
def getFloatRect (T : Toolkit) (component : Component) : Rectangle Rat :=
  if component.propsContains "floatX" = true ∧ component.propsContains "floatY" = true ∧
      component.propsContains "floatW" = true ∧ component.propsContains "floatH" = true then
    ⟨T.toFloat (component.prop "floatX"), T.toFloat (component.prop "floatY"),
      T.toFloat (component.prop "floatW"), T.toFloat (component.prop "floatH")⟩
  else
    component.getLocalBounds.toFloat T

/-- The method `getComponentDisplay` (lines 111-161): three strategies tried in
turn, `none` standing for the null pointer. -/
def getComponentDisplay (T : Toolkit) (component : Component) : Option Display :=
  let strategy1 : Option Display :=
    if component.isShowing = true ∧ component.screenBounds.getWidth > 0 then
      match T.getDisplayForPoint component.screenBounds.getCentre with
      | some display => some display
      | none => T.getDisplayForRect component.screenBounds
    else none
  match strategy1 with
  | some display => some display
  | none =>
    let strategy2 : Option Display :=
      if component.parentMonitorArea.isEmpty = false then
        T.getDisplayForRect component.parentMonitorArea
      else none
    match strategy2 with
    | some display => some display
    | none =>
      match component.topLevelComponent with
      | some topLevel =>
        if topLevel.isOnDesktop = true ∧ topLevel.screenBounds.getWidth > 0 then
          T.getDisplayForPoint topLevel.screenBounds.getCentre
        else none
      | none => none

/-- The local `resamplingNeeded` of `shouldDisplayResampledImages` and
`handleResampling`: the display is known and its scale is approximately 1.0. -/
def resamplingNeeded (T : Toolkit) (component : Component) : Bool :=
  match getComponentDisplay T component with
  | some display => T.approximatelyEqual display.scale 1
  | none => false

/-! ## DeferredImageResampler.h: the resampler object and drawing -/

/-- The constant `delayTimeMs`. -/
def delayTimeMs : Nat := 500

/-- The members of a `DeferredImageResampler`, with the state of its
`juce::Timer` base, of the weak-reference master and of the lambda its
constructor posted. -/
structure DeferredImageResampler where
  images : List Image
  resampledImages : List Image
  resamplingMask : Image
  isResamplingDone : Bool
  component : Component
  /-- The running timer's deadline on the message-thread clock, if it runs. -/
  timer : Option Nat
  /-- Whether the lambda posted by the constructor is still to be run. -/
  initialAttemptPending : Bool
  /-- Whether the object has not been destroyed: weak references to it are
  valid and it still listens to its component. -/
  alive : Bool

/-- The constructor (lines 6-20): stores the mask, registers as listener and
posts the first schedule attempt.  The image set is what the owner fills
`images` with. -/
def DeferredImageResampler.construct (wrappedComponent : Component) (maskImage : Image)
    (images : List Image) : DeferredImageResampler :=
  { images := images
    resampledImages := []
    resamplingMask := maskImage
    isResamplingDone := false
    component := wrappedComponent
    timer := none
    initialAttemptPending := true
    alive := true }

/-- The method `shouldDisplayResampledImages` (lines 27-41). -/
def shouldDisplayResampledImages (T : Toolkit) (this : DeferredImageResampler) : Bool :=
  this.isResamplingDone && resamplingNeeded T this.component

/-- Flags of `juce::Justification`; the code passes `centred`. -/
inductive Justification where
  | centred
  | left
deriving DecidableEq, Repr

/-- Flags of `juce::RectanglePlacement`; the code passes `stretchToFit`. -/
inductive RectanglePlacement where
  | stretchToFit
  | centred
deriving DecidableEq, Repr

/-- One call made on a `juce::Graphics` context. -/
inductive GraphicsCall where
  | setImageResamplingQuality (q : ResamplingQuality)
  | fillAll (c : Colour)
  | setColour (c : Colour)
  | drawText (text : String) (area : Rectangle Int) (j : Justification) (useEllipses : Bool)
  | drawImageAt (img : Image) (x y : Int)
  | drawImage (img : Image) (target : Rectangle Rat) (placement : RectanglePlacement)

/-- A `juce::Graphics` context: the calls made on it so far. -/
structure Graphics where
  calls : List GraphicsCall

/-- Records one more call on the context. -/
def Graphics.call (g : Graphics) (c : GraphicsCall) : Graphics := ⟨g.calls ++ [c]⟩

/-- Whether a call paints an image (the cached one or the source). -/
def GraphicsCall.paintsImage : GraphicsCall → Bool
  | GraphicsCall.drawImageAt _ _ _ => true
  | GraphicsCall.drawImage _ _ _ => true
  | _ => false

/-- The method `drawImage` (lines 43-84).  It is not `const`, so the object is
handed back next to the context. -/
def drawImage (T : Toolkit) (this : DeferredImageResampler) (g : Graphics) (imageIndex : Int) :
    DeferredImageResampler × Graphics :=
  let g := g.call (GraphicsCall.setImageResamplingQuality ResamplingQuality.highResamplingQuality)
  if imageIndex < 0 ∨ imageIndex ≥ (this.images.length : Int) then
    let g := g.call (GraphicsCall.fillAll (T.withAlpha Colours.darkgrey (3 / 10)))
    let g := g.call (GraphicsCall.setColour Colours.white)
    let g := g.call (GraphicsCall.drawText "Invalid Image Index" this.component.getLocalBounds
      Justification.centred true)
    (this, g)
  else if shouldDisplayResampledImages T this = true then
    match this.resampledImages[imageIndex.toNat]? with
    | none =>
      let g := g.call (GraphicsCall.fillAll (T.withAlpha Colours.darkgrey (3 / 10)))
      let g := g.call (GraphicsCall.setColour Colours.white)
      let g := g.call (GraphicsCall.drawText "Resampling Failed" this.component.getLocalBounds
        Justification.centred true)
      (this, g)
    | some resampledImage =>
      if resampledImage.isValid = false then
        let g := g.call (GraphicsCall.fillAll (T.withAlpha Colours.darkgrey (3 / 10)))
        let g := g.call (GraphicsCall.setColour Colours.white)
        let g := g.call (GraphicsCall.drawText "Resampling Failed"
          this.component.getLocalBounds Justification.centred true)
        (this, g)
      else
        (this, g.call (GraphicsCall.drawImageAt resampledImage 0 0))
  else
    let floatRect := getFloatRect T this.component
    (this, g.call (GraphicsCall.drawImage (this.images.getD imageIndex.toNat Image.null)
      floatRect RectanglePlacement.stretchToFit))

/-! ## DeferredImageResampler.h: the resampling job -/

/-- Where a `ResamplingJob` stands inside `runJob` (lines 190-243). -/
inductive JobPc where
  /-- Before line 192: the first `shouldExit` poll and the weak-reference test. -/
  | atStart
  /-- Before lines 202-203: clearing the flag and the result set. -/
  | atClear
  /-- At line 205 with loop counter `i`: the loop test and the poll of line 208. -/
  | atLoop (i : Nat)
  /-- Before line 215 with loop counter `i`: reading the arguments of
  `applyResize` for image `i`. -/
  | atResample (i : Nat)
  /-- Inside `applyResize` for image `i`, called with this width and height;
  the stretch ends with the `add` of line 221. -/
  | inResample (i : Nat) (width height : Int)
  /-- Before line 224: setting the flag. -/
  | atComplete
  /-- After `return jobHasFinished`. -/
  | finished
deriving DecidableEq, Repr

/-- One stretch of `runJob` between two of its program points.  `shouldExit`
is what `shouldExit()` answers now, `weakValid` whether `weakResampler.get()`
is non-null now, `strongThis` the object the job writes to. -/
def ResamplingJob.step (T : Toolkit) (shouldExit weakValid : Bool) (pc : JobPc)
    (strongThis : DeferredImageResampler) : JobPc × DeferredImageResampler :=
  match pc with
  | JobPc.atStart =>
    if shouldExit = true then (JobPc.finished, strongThis)
    else if weakValid = true then (JobPc.atClear, strongThis)
    else (JobPc.finished, strongThis)
  | JobPc.atClear =>
    (JobPc.atLoop 0, { strongThis with isResamplingDone := false, resampledImages := [] })
  | JobPc.atLoop i =>
    if i < strongThis.images.length then
      if shouldExit = true then (JobPc.finished, strongThis)
      else (JobPc.atResample i, strongThis)
    else (JobPc.atComplete, strongThis)
  | JobPc.atResample i =>
    (JobPc.inResample i strongThis.component.width strongThis.component.height, strongThis)
  | JobPc.inResample i width height =>
    let image := strongThis.images.getD i Image.null
    let resampledImage := applyResize T image strongThis.resamplingMask width height
      defaultResizeAlgorirm
    (JobPc.atLoop (i + 1),
      { strongThis with resampledImages := strongThis.resampledImages ++ [resampledImage] })
  | JobPc.atComplete =>
    (JobPc.finished, { strongThis with isResamplingDone := true })
  | JobPc.finished => (JobPc.finished, strongThis)

/-- Runs `runJob` from a program point for at most `fuel` stretches, with
fixed answers to the poll and to the weak-reference test and nothing else
touching the object. -/
def ResamplingJob.run (T : Toolkit) (shouldExit weakValid : Bool) :
    Nat → JobPc × DeferredImageResampler → JobPc × DeferredImageResampler
  | 0, st => st
  | fuel + 1, st =>
    if st.1 = JobPc.finished then st
    else ResamplingJob.run T shouldExit weakValid fuel
      (ResamplingJob.step T shouldExit weakValid st.1 st.2)

/-- The method `runJob` on a live resampler, never asked to exit: three
stretches per image and four around the loop are enough for it to return. -/
def ResamplingJob.runJob (T : Toolkit) (this : DeferredImageResampler) :
    JobPc × DeferredImageResampler :=
  ResamplingJob.run T false true (3 * this.images.length + 4) (JobPc.atStart, this)

/-! ## DeferredImageResampler.h: the shared pool, the message thread, the worker -/

/-- A `ResamplingJob` inside the pool: the resampler its weak reference names,
the `juce::ThreadPoolJob` flags, and where it stands in `runJob`. -/
structure ResamplingJob where
  weakResampler : Nat
  shouldStop : Bool
  isActive : Bool
  pc : JobPc
deriving DecidableEq, Repr

/-- The constructor `ResamplingJob (r)` (lines 181-185). -/
def ResamplingJob.create (r : Nat) : ResamplingJob := ⟨r, false, false, JobPc.atStart⟩

/-- The `juce::ThreadPool` inside `ImageResamplingThreadPool` (lines 163-174):
its job list; it has one thread. -/
structure ThreadPool where
  jobs : List ResamplingJob
deriving DecidableEq, Repr

/-- The call `ThreadPool::addJob (job, true)`: the job joins the end of the list. -/
def ThreadPool.addJob (p : ThreadPool) (job : ResamplingJob) : ThreadPool :=
  ⟨p.jobs ++ [job]⟩

/-- The call `ThreadPool::removeAllJobs (interruptRunningJobs, timeOutMs)`:
jobs that are not running leave the list, running ones are told to exit when
`interruptRunningJobs` is set and stay until they return.  The bounded wait
for them is not modelled: what they do while the caller waits they do, here,
after the call. -/
def ThreadPool.removeAllJobs (p : ThreadPool) (interruptRunningJobs : Bool)
    (_timeOutMs : Nat) : ThreadPool :=
  ⟨p.jobs.filterMap (fun job =>
    if job.isActive = true then
      some (if interruptRunningJobs = true then { job with shouldStop := true } else job)
    else none)⟩

/-- The pool's single thread takes the first job that is not running, if it
is not busy with another one. -/
def ThreadPool.pickNextJobToRun (p : ThreadPool) : ThreadPool :=
  if p.jobs.any (fun job => job.isActive) = true then p
  else
    match p.jobs with
    | [] => p
    | job :: rest => ⟨{ job with isActive := true } :: rest⟩

/-- All resamplers of the process, the pool they share through
`juce::SharedResourcePointer`, and the message-thread clock. -/
structure System where
  /-- The clock of the message thread, in milliseconds. -/
  now : Nat
  /-- The resampler objects, by address. -/
  resamplers : Nat → DeferredImageResampler
  /-- The addresses in use. -/
  ids : List Nat
  /-- The shared `ImageResamplingThreadPool`. -/
  threadPool : ThreadPool
  /-- History of the `addJob` calls of `handleResampling`: time and resampler. -/
  submissions : List (Nat × Nat)

/-- The method `handleResampling` (lines 250-274) of resampler `id`. -/
def handleResampling (T : Toolkit) (id : Nat) (s : System) : System :=
  let this := s.resamplers id
  if this.component.width ≤ 0 ∨ this.component.height ≤ 0 then s
  else if resamplingNeeded T this.component = true then
    { s with
      threadPool := s.threadPool.addJob (ResamplingJob.create id)
      submissions := s.submissions ++ [(s.now, id)] }
  else s

/-- The method `componentMovedOrResized` (lines 276-294) of resampler `id`. -/
def componentMovedOrResized (id : Nat) (_wasMoved wasResized : Bool) (s : System) : System :=
  if wasResized = false then s
  else
    { s with
      resamplers := Function.update s.resamplers id
        ({ s.resamplers id with isResamplingDone := false, timer := some (s.now + delayTimeMs) })
      threadPool := s.threadPool.removeAllJobs true delayTimeMs }

/-- The method `timerCallback` (lines 296-302) of resampler `id`. -/
def timerCallback (T : Toolkit) (id : Nat) (s : System) : System :=
  handleResampling T id
    { s with resamplers := Function.update s.resamplers id { s.resamplers id with timer := none } }

/-- The destructor (lines 22-25) with the destructors of its bases and
members: the listener is removed, weak references become null, the timer
stops, and the last resampler to go takes the shared pool with it, whose
destructor (lines 167-170) removes all jobs. -/
def destroy (id : Nat) (s : System) : System :=
  let s1 : System :=
    { s with
      resamplers := Function.update s.resamplers id
        ({ s.resamplers id with alive := false, timer := none }) }
  if s.ids.all (fun j => j == id || !(s.resamplers j).alive) = true then
    { s1 with threadPool := s1.threadPool.removeAllJobs true delayTimeMs }
  else s1

/-- The running job of the pool's thread executes up to its next program
point; a job that returns is deleted from the pool. -/
def jobStep (T : Toolkit) (s : System) : System :=
  match s.threadPool.jobs.find? (fun job => job.isActive) with
  | none => s
  | some job =>
    let st := ResamplingJob.step T job.shouldStop (s.resamplers job.weakResampler).alive job.pc
      (s.resamplers job.weakResampler)
    { s with
      resamplers := Function.update s.resamplers job.weakResampler st.2
      threadPool :=
        if st.1 = JobPc.finished then
          ⟨s.threadPool.jobs.filter (fun j => !j.isActive)⟩
        else
          ⟨s.threadPool.jobs.map (fun j => if j.isActive = true then { j with pc := st.1 } else j)⟩ }

/-- What can happen next: a callback on the message thread, or a move of the
pool's thread. -/
inductive Event where
  /-- The message thread runs the lambda posted by the constructor of `id`. -/
  | initialAttempt (id : Nat)
  /-- The component of `id` has changed to `component` and notifies its listeners. -/
  | movedOrResized (id : Nat) (component : Component) (wasMoved wasResized : Bool)
  /-- The timer of `id` fires. -/
  | timerFired (id : Nat)
  /-- The resampler `id` is destroyed. -/
  | destroyed (id : Nat)
  /-- Time passes on the message thread. -/
  | elapse (ms : Nat)
  /-- The pool's thread takes the next queued job. -/
  | workerPick
  /-- The running job executes up to its next program point. -/
  | jobStep

/-- The effect of one event; an event that cannot happen in the state (a
callback of a destroyed resampler, a timer that is not running) changes
nothing. -/
def step (T : Toolkit) (e : Event) (s : System) : System :=
  match e with
  | Event.initialAttempt id =>
    if (s.resamplers id).initialAttemptPending = true then
      let s1 : System :=
        { s with
          resamplers := Function.update s.resamplers id
            ({ s.resamplers id with initialAttemptPending := false }) }
      if (s.resamplers id).alive = true then handleResampling T id s1 else s1
    else s
  | Event.movedOrResized id component wasMoved wasResized =>
    if (s.resamplers id).alive = true then
      componentMovedOrResized id wasMoved wasResized
        { s with
          resamplers := Function.update s.resamplers id
            ({ s.resamplers id with component := component }) }
    else s
  | Event.timerFired id =>
    match (s.resamplers id).timer with
    | some deadline =>
      if (s.resamplers id).alive = true then
        timerCallback T id { s with now := max s.now deadline }
      else s
    | none => s
  | Event.destroyed id =>
    if (s.resamplers id).alive = true then destroy id s else s
  | Event.elapse ms => { s with now := s.now + ms }
  | Event.workerPick => { s with threadPool := s.threadPool.pickNextJobToRun }
  | Event.jobStep => jobStep T s

/-- The effect of a sequence of events, first to last. -/
def run (T : Toolkit) : List Event → System → System
  | [], s => s
  | e :: es, s => run T es (step T e s)

/-- Number of jobs of `id` in the pool, queued or running, that have not been
told to exit. -/
def outstanding (id : Nat) (s : System) : Nat :=
  (s.threadPool.jobs.filter (fun job => job.weakResampler == id && !job.shouldStop)).length

/-- Number of jobs of `id` in the pool, queued or running. -/
def jobsOf (id : Nat) (s : System) : Nat :=
  (s.threadPool.jobs.filter (fun job => job.weakResampler == id)).length

/-- Counts 1 while the timer of `id` runs. -/
def armed (id : Nat) (s : System) : Nat :=
  if (s.resamplers id).timer.isSome = true then 1 else 0

/-! ## Concrete data for the worked examples -/

/-- A slot that holds no resampler: nothing alive, nothing pending. -/
def DeferredImageResampler.vacant : DeferredImageResampler :=
  { images := []
    resampledImages := []
    resamplingMask := Image.null
    isResamplingDone := false
    component := ⟨0, 0, [], false, ⟨0, 0, 0, 0⟩, ⟨0, 0, 0, 0⟩, none⟩
    timer := none
    initialAttemptPending := false
    alive := false }

/-- The system right after the given resamplers were constructed, at
addresses 0, 1, ...: the pool is empty and the clock at 0. -/
def System.initial (objects : List DeferredImageResampler) : System :=
  { now := 0
    resamplers := fun id => objects.getD id DeferredImageResampler.vacant
    ids := List.range objects.length
    threadPool := ⟨[]⟩
    submissions := [] }

namespace Example

/-- A nearest-neighbour scaler that keeps the source's format and returns a
canvas of the requested size for every non-null source. -/
def nearest (src : Image) (width height : Int) : Image :=
  match src with
  | none => none
  | some d =>
    some ⟨d.pixelFormat, width, height,
      fun x y => d.pixels (x * d.width / width) (y * d.height / height)⟩

/-- The least `k` from `k` on, within `fuel` tries, with `n < 2 ^ (24 + k) * d`. -/
def ulpUp (n d : Nat) : Nat → Nat → Nat
  | 0, k => k
  | fuel + 1, k => if n < 2 ^ (24 + k) * d then k else ulpUp n d fuel (k + 1)

/-- The least `k` from `k` on, within `fuel` tries, with `2 ^ 23 * d ≤ n * 2 ^ k`. -/
def ulpDown (n d : Nat) : Nat → Nat → Nat
  | 0, k => k
  | fuel + 1, k => if 2 ^ 23 * d ≤ n * 2 ^ k then k else ulpDown n d fuel (k + 1)

/-- The quotient `n / d` rounded to the nearest integer, ties to even. -/
def roundHalfEven (n d : Nat) : Nat :=
  if 2 * (n % d) < d then n / d
  else if d < 2 * (n % d) then n / d + 1
  else if (n / d) % 2 = 0 then n / d else n / d + 1

/-- Rounding to binary32 (24 significant bits, least spacing 2^-149, ties to
even) of a number below the binary32 range's upper end. -/
def binary32 (q : Rat) : Rat :=
  let n := q.num.natAbs
  let d := q.den
  let m : Rat :=
    if n = 0 then 0
    else if 2 ^ 23 * d ≤ n then
      ((roundHalfEven n (d * 2 ^ ulpUp n d 1024 0) * 2 ^ ulpUp n d 1024 0 : Nat) : Rat)
    else
      mkRat (roundHalfEven (n * 2 ^ ulpDown n d 149 0) d) (2 ^ ulpDown n d 149 0)
  if q < 0 then -m else m

/-- A toolkit for the examples: nearest-neighbour scaling, exact comparison of
scales, binary32 narrowing, and two monitors side by side, the left one (x
below 2000) at scale 1 and the right one at scale 2. -/
def toolkit : Toolkit :=
  { ginApplyResize := fun img w h _ => nearest img w h
    rescaled := fun img w h _ => nearest img w h
    approximatelyEqual := fun a b => decide (a = b)
    withAlpha := fun c a => { c with alpha := (a * 255).floor.toNat }
    getDisplayForPoint := fun p => if p.x < 2000 then some ⟨1⟩ else some ⟨2⟩
    getDisplayForRect := fun r => if r.x < 2000 then some ⟨1⟩ else some ⟨2⟩
    toFloat := binary32 }

/-- A 4x4 opaque source image whose red and green channels are the pixel's
coordinates. -/
def source : Image :=
  some ⟨PixelFormat.ARGB, 4, 4, fun x y => ⟨255, x.toNat, y.toNat, 7⟩⟩

/-- A 2x2 mask: opaque left column, transparent right column. -/
def mask : Image :=
  some ⟨PixelFormat.ARGB, 2, 2, fun x _ => if x = 0 then ⟨255, 0, 0, 0⟩ else ⟨0, 0, 0, 0⟩⟩

/-- A showing component of the given size on the left monitor (scale 1). -/
def component (w h : Int) : Component :=
  { width := w
    height := h
    properties := []
    isShowing := true
    screenBounds := ⟨100, 100, w, h⟩
    parentMonitorArea := ⟨0, 0, 2000, 1000⟩
    topLevelComponent := some ⟨true, ⟨0, 0, 800, 600⟩⟩ }

/-- A showing component of the given size on the right monitor (scale 2). -/
def componentHiDpi (w h : Int) : Component :=
  { width := w
    height := h
    properties := []
    isShowing := true
    screenBounds := ⟨2100, 100, w, h⟩
    parentMonitorArea := ⟨2000, 0, 2000, 1000⟩
    topLevelComponent := some ⟨true, ⟨2000, 0, 800, 600⟩⟩ }

/-- Resampler A: component 2x2 on the scale-1 monitor, masked, two images. -/
def resamplerA : DeferredImageResampler :=
  DeferredImageResampler.construct (component 2 2) mask [source, source]

/-- Resampler B: component 3x3 on the scale-1 monitor, no mask, one image. -/
def resamplerB : DeferredImageResampler :=
  DeferredImageResampler.construct (component 3 3) Image.null [source]

/-- Two resamplers sharing the pool: A at address 0, B at address 1. -/
def system : System := System.initial [resamplerA, resamplerB]

/-- A resampler whose component sits on the scale-2 monitor, flagged ready
with a cached result, as a job would leave it had it run at scale 1. -/
def resamplerHiDpi : DeferredImageResampler :=
  { DeferredImageResampler.construct (componentHiDpi 2 2) Image.null [source, source] with
    isResamplingDone := true
    resampledImages := [nearest source 2 2, nearest source 2 2] }

/-- A system holding only the resampler on the scale-2 monitor. -/
def systemHiDpi : System := System.initial [resamplerHiDpi]

/-- The 2x2 component on the scale-2 monitor with the four float properties
attached; the width 16777217 is not a binary32 number. -/
def componentFloat : Component :=
  { componentHiDpi 2 2 with
    properties :=
      [("floatX", 10), ("floatY", 20), ("floatW", 16777217), ("floatH", 40)] }

/-- A resampler on the component that carries the float properties. -/
def resamplerFloat : DeferredImageResampler :=
  DeferredImageResampler.construct componentFloat Image.null [source]

/-- An empty graphics context. -/
def graphics : Graphics := ⟨[]⟩

end Example

/-! ## Theorems: the bitmap model -/

theorem Image.getWidth_setPixelAt (img : Image) (x y : Int) (c : Colour) :
    (img.setPixelAt x y c).getWidth = img.getWidth := by
  cases img with
  | none => rfl
  | some d =>
    simp only [Image.setPixelAt]
    split_ifs <;> rfl

theorem Image.getHeight_setPixelAt (img : Image) (x y : Int) (c : Colour) :
    (img.setPixelAt x y c).getHeight = img.getHeight := by
  cases img with
  | none => rfl
  | some d =>
    simp only [Image.setPixelAt]
    split_ifs <;> rfl

theorem Image.getPixelAt_setPixelAt (img : Image) (x y : Int) (c : Colour) (u v : Int) :
    (img.setPixelAt x y c).getPixelAt u v =
      if u = x ∧ v = y ∧ 0 ≤ x ∧ x < img.getWidth ∧ 0 ≤ y ∧ y < img.getHeight then c
      else img.getPixelAt u v := by
  cases img with
  | none =>
    have h1 : ¬ (u = x ∧ v = y ∧ 0 ≤ x ∧ x < Image.getWidth none ∧ 0 ≤ y ∧
        y < Image.getHeight none) := by
      intro h
      have h2 := h.2.2.2.1
      simp only [Image.getWidth] at h2
      omega
    simp only [if_neg h1]
    rfl
  | some d =>
    simp only [Image.setPixelAt, Image.getPixelAt, Image.getWidth, Image.getHeight]
    by_cases hin : 0 ≤ x ∧ x < d.width ∧ 0 ≤ y ∧ y < d.height
    · rw [if_pos hin]
      by_cases huv : u = x ∧ v = y
      · obtain ⟨rfl, rfl⟩ := huv
        simp [hin]
      · have h1 : ¬ (u = x ∧ v = y ∧ 0 ≤ x ∧ x < d.width ∧ 0 ≤ y ∧ y < d.height) :=
          fun h => huv ⟨h.1, h.2.1⟩
        simp only [if_neg h1, if_neg huv]
    · have h1 : ¬ (u = x ∧ v = y ∧ 0 ≤ x ∧ x < d.width ∧ 0 ≤ y ∧ y < d.height) :=
        fun h => hin h.2.2
      simp only [if_neg hin, if_neg h1]

theorem Image.getPixelAt_clear_create (format : PixelFormat) (w h : Int) (b : Bool)
    (area : Rectangle Int) (u v : Int) :
    (((Image.create format w h b).clear area Colours.transparentBlack).getPixelAt u v) =
      Colours.transparentBlack := by
  simp only [Image.create, Image.clear, Image.getPixelAt]
  split_ifs <;> rfl

/-! ## Theorems: the masking loops -/

theorem applyResize_row (HQ M : Image) (y : Int) (n : Nat) (acc : Image) :
    (forLoop (fun x m => if (M.getPixelAt x y).getAlpha > 0 then
        Image.setPixelAt m x y (HQ.getPixelAt x y) else m) n acc).getWidth = acc.getWidth ∧
    (forLoop (fun x m => if (M.getPixelAt x y).getAlpha > 0 then
        Image.setPixelAt m x y (HQ.getPixelAt x y) else m) n acc).getHeight = acc.getHeight ∧
    ∀ u v : Int,
      (forLoop (fun x m => if (M.getPixelAt x y).getAlpha > 0 then
        Image.setPixelAt m x y (HQ.getPixelAt x y) else m) n acc).getPixelAt u v =
      if v = y ∧ 0 ≤ u ∧ u < n ∧ u < acc.getWidth ∧ 0 ≤ y ∧ y < acc.getHeight ∧
          (M.getPixelAt u y).getAlpha > 0
      then HQ.getPixelAt u y else acc.getPixelAt u v := by
  induction n with
  | zero =>
    refine ⟨rfl, rfl, fun u v => ?_⟩
    have h : ¬ (v = y ∧ 0 ≤ u ∧ u < ((0 : Nat) : Int) ∧ u < acc.getWidth ∧ 0 ≤ y ∧
        y < acc.getHeight ∧ (M.getPixelAt u y).getAlpha > 0) := by
      intro h
      have := h.2.1
      have := h.2.2.1
      omega
    rw [if_neg h]
    rfl
  | succ n ih =>
    obtain ⟨hw, hh, hp⟩ := ih
    simp only [forLoop]
    by_cases hc : (M.getPixelAt n y).getAlpha > 0
    · simp only [if_pos hc, Image.getWidth_setPixelAt, Image.getHeight_setPixelAt, hw, hh,
        Image.getPixelAt_setPixelAt, hp]
      refine ⟨trivial, trivial, fun u v => ?_⟩
      by_cases hu : u = (n : Int)
      · subst hu
        by_cases hv : v = y
        · subst hv
          by_cases hb : (n : Int) < acc.getWidth ∧ 0 ≤ v ∧ v < acc.getHeight
          · have h1 : (n : Int) = n ∧ v = v ∧ 0 ≤ (n : Int) ∧ (n : Int) < acc.getWidth ∧
                0 ≤ v ∧ v < acc.getHeight := ⟨rfl, rfl, by omega, hb.1, hb.2.1, hb.2.2⟩
            have h2 : v = v ∧ 0 ≤ (n : Int) ∧ (n : Int) < ((n + 1 : Nat) : Int) ∧
                (n : Int) < acc.getWidth ∧ 0 ≤ v ∧ v < acc.getHeight ∧
                (M.getPixelAt n v).getAlpha > 0 :=
              ⟨rfl, by omega, by push_cast; omega, hb.1, hb.2.1, hb.2.2, hc⟩
            rw [if_pos h1, if_pos h2]
          · have h1 : ¬ ((n : Int) = n ∧ v = v ∧ 0 ≤ (n : Int) ∧ (n : Int) < acc.getWidth ∧
                0 ≤ v ∧ v < acc.getHeight) := fun h => hb ⟨h.2.2.2.1, h.2.2.2.2⟩
            have h2 : ¬ (v = v ∧ 0 ≤ (n : Int) ∧ (n : Int) < ((n + 1 : Nat) : Int) ∧
                (n : Int) < acc.getWidth ∧ 0 ≤ v ∧ v < acc.getHeight ∧
                (M.getPixelAt n v).getAlpha > 0) :=
              fun h => hb ⟨h.2.2.2.1, h.2.2.2.2.1, h.2.2.2.2.2.1⟩
            have h3 : ¬ (v = v ∧ 0 ≤ (n : Int) ∧ (n : Int) < (n : Int) ∧
                (n : Int) < acc.getWidth ∧ 0 ≤ v ∧ v < acc.getHeight ∧
                (M.getPixelAt n v).getAlpha > 0) := fun h => by have := h.2.2.1; omega
            rw [if_neg h1, if_neg h2, if_neg h3]
        · have h1 : ¬ ((n : Int) = n ∧ v = y ∧ 0 ≤ (n : Int) ∧ (n : Int) < acc.getWidth ∧
              0 ≤ y ∧ y < acc.getHeight) := fun h => hv h.2.1
          have h2 : ¬ (v = y ∧ 0 ≤ (n : Int) ∧ (n : Int) < ((n + 1 : Nat) : Int) ∧
              (n : Int) < acc.getWidth ∧ 0 ≤ y ∧ y < acc.getHeight ∧
              (M.getPixelAt n y).getAlpha > 0) := fun h => hv h.1
          have h3 : ¬ (v = y ∧ 0 ≤ (n : Int) ∧ (n : Int) < (n : Int) ∧
              (n : Int) < acc.getWidth ∧ 0 ≤ y ∧ y < acc.getHeight ∧
              (M.getPixelAt n y).getAlpha > 0) := fun h => hv h.1
          rw [if_neg h1, if_neg h2, if_neg h3]
      · have h1 : ¬ (u = n ∧ v = y ∧ 0 ≤ (n : Int) ∧ (n : Int) < acc.getWidth ∧
            0 ≤ y ∧ y < acc.getHeight) := fun h => hu h.1
        rw [if_neg h1]
        have hiff : (v = y ∧ 0 ≤ u ∧ u < (n : Int) ∧ u < acc.getWidth ∧ 0 ≤ y ∧
            y < acc.getHeight ∧ (M.getPixelAt u y).getAlpha > 0) ↔
            (v = y ∧ 0 ≤ u ∧ u < ((n + 1 : Nat) : Int) ∧ u < acc.getWidth ∧ 0 ≤ y ∧
            y < acc.getHeight ∧ (M.getPixelAt u y).getAlpha > 0) := by
          constructor
          · rintro ⟨a, b, c, d⟩
            exact ⟨a, b, by push_cast; omega, d⟩
          · rintro ⟨a, b, c, d⟩
            exact ⟨a, b, by push_cast at c; omega, d⟩
        simp only [hiff]
    · simp only [if_neg hc, hw, hh, hp]
      refine ⟨trivial, trivial, fun u v => ?_⟩
      have hiff : (v = y ∧ 0 ≤ u ∧ u < (n : Int) ∧ u < acc.getWidth ∧ 0 ≤ y ∧
          y < acc.getHeight ∧ (M.getPixelAt u y).getAlpha > 0) ↔
          (v = y ∧ 0 ≤ u ∧ u < ((n + 1 : Nat) : Int) ∧ u < acc.getWidth ∧ 0 ≤ y ∧
          y < acc.getHeight ∧ (M.getPixelAt u y).getAlpha > 0) := by
        constructor
        · rintro ⟨a, b, c, d⟩
          exact ⟨a, b, by push_cast; omega, d⟩
        · rintro ⟨a, b, c, d⟩
          refine ⟨a, b, ?_, d⟩
          have hne : u ≠ (n : Int) := by
            rintro rfl
            exact hc d.2.2.2
          push_cast at c
          omega
      simp only [hiff]

theorem applyResize_rows (HQ M : Image) (w n : Nat) (acc : Image) :
    (forLoop (fun y m => forLoop (fun x m => if (M.getPixelAt x y).getAlpha > 0 then
        Image.setPixelAt m x y (HQ.getPixelAt x y) else m) w m) n acc).getWidth
      = acc.getWidth ∧
    (forLoop (fun y m => forLoop (fun x m => if (M.getPixelAt x y).getAlpha > 0 then
        Image.setPixelAt m x y (HQ.getPixelAt x y) else m) w m) n acc).getHeight
      = acc.getHeight ∧
    ∀ u v : Int,
      (forLoop (fun y m => forLoop (fun x m => if (M.getPixelAt x y).getAlpha > 0 then
        Image.setPixelAt m x y (HQ.getPixelAt x y) else m) w m) n acc).getPixelAt u v =
      if 0 ≤ v ∧ v < n ∧ v < acc.getHeight ∧ 0 ≤ u ∧ u < w ∧ u < acc.getWidth ∧
          (M.getPixelAt u v).getAlpha > 0
      then HQ.getPixelAt u v else acc.getPixelAt u v := by
  induction n with
  | zero =>
    refine ⟨rfl, rfl, fun u v => ?_⟩
    have h : ¬ (0 ≤ v ∧ v < ((0 : Nat) : Int) ∧ v < acc.getHeight ∧ 0 ≤ u ∧ u < (w : Int) ∧
        u < acc.getWidth ∧ (M.getPixelAt u v).getAlpha > 0) := by
      intro h
      have := h.1
      have := h.2.1
      omega
    rw [if_neg h]
    rfl
  | succ n ih =>
    obtain ⟨hw, hh, hp⟩ := ih
    simp only [forLoop]
    obtain ⟨rw_, rh_, rp_⟩ := applyResize_row HQ M (n : Int) w
      (forLoop (fun y m => forLoop (fun x m => if (M.getPixelAt x y).getAlpha > 0 then
        Image.setPixelAt m x y (HQ.getPixelAt x y) else m) w m) n acc)
    refine ⟨rw_.trans hw, rh_.trans hh, fun u v => ?_⟩
    rw [rp_, hp, hw, hh]
    by_cases hv : v = (n : Int)
    · subst hv
      have h3 : ¬ (0 ≤ (n : Int) ∧ (n : Int) < (n : Int) ∧ (n : Int) < acc.getHeight ∧ 0 ≤ u ∧
          u < (w : Int) ∧ u < acc.getWidth ∧ (M.getPixelAt u n).getAlpha > 0) :=
        fun h => by have := h.2.1; omega
      rw [if_neg h3]
      have hiff : ((n : Int) = n ∧ 0 ≤ u ∧ u < (w : Int) ∧ u < acc.getWidth ∧ 0 ≤ (n : Int) ∧
          (n : Int) < acc.getHeight ∧ (M.getPixelAt u n).getAlpha > 0) ↔
          (0 ≤ (n : Int) ∧ (n : Int) < ((n + 1 : Nat) : Int) ∧ (n : Int) < acc.getHeight ∧
          0 ≤ u ∧ u < (w : Int) ∧ u < acc.getWidth ∧ (M.getPixelAt u n).getAlpha > 0) := by
        constructor
        · rintro ⟨_, a, b, c, d, e, f⟩
          exact ⟨d, by push_cast; omega, e, a, b, c, f⟩
        · rintro ⟨d, _, e, a, b, c, f⟩
          exact ⟨rfl, a, b, c, d, e, f⟩
      split_ifs with h1 h2 h2
      · rfl
      · exact absurd (hiff.mp h1) h2
      · exact absurd (hiff.mpr h2) h1
      · rfl
    · have h1 : ¬ (v = (n : Int) ∧ 0 ≤ u ∧ u < (w : Int) ∧ u < acc.getWidth ∧ 0 ≤ (n : Int) ∧
          (n : Int) < acc.getHeight ∧ (M.getPixelAt u n).getAlpha > 0) := fun h => hv h.1
      rw [if_neg h1]
      have hiff : (0 ≤ v ∧ v < (n : Int) ∧ v < acc.getHeight ∧ 0 ≤ u ∧ u < (w : Int) ∧
          u < acc.getWidth ∧ (M.getPixelAt u v).getAlpha > 0) ↔
          (0 ≤ v ∧ v < ((n + 1 : Nat) : Int) ∧ v < acc.getHeight ∧ 0 ≤ u ∧ u < (w : Int) ∧
          u < acc.getWidth ∧ (M.getPixelAt u v).getAlpha > 0) := by
        constructor
        · rintro ⟨a, b, c⟩
          exact ⟨a, by push_cast; omega, c⟩
        · rintro ⟨a, b, c⟩
          exact ⟨a, by push_cast at b; omega, c⟩
      simp only [hiff]

/-- The masked branch of `applyResize`, pixel by pixel: the result has the
size of the high-quality resize, and each of its pixels is the resize's where
the scaled mask has alpha above zero and transparent black elsewhere. -/
theorem applyResize_masked_pixels (T : Toolkit) (img resamplingMask : Image)
    (width height : Int) (alg : ResizeAlgorirm)
    (himg : img.isNull = false) (hmask : resamplingMask.isNull = false)
    (hw : 0 < width) (hh : 0 < height) :
    (applyResize T img resamplingMask width height alg).getWidth
      = (T.ginApplyResize img width height alg).getWidth ∧
    (applyResize T img resamplingMask width height alg).getHeight
      = (T.ginApplyResize img width height alg).getHeight ∧
    ∀ x y : Int, 0 ≤ x → x < (applyResize T img resamplingMask width height alg).getWidth →
      0 ≤ y → y < (applyResize T img resamplingMask width height alg).getHeight →
      (applyResize T img resamplingMask width height alg).getPixelAt x y =
        if ((T.rescaled resamplingMask width height
              ResamplingQuality.lowResamplingQuality).getPixelAt x y).getAlpha > 0
        then (T.ginApplyResize img width height alg).getPixelAt x y
        else Colours.transparentBlack := by
  have hguard : ¬ (width ≤ 0 ∨ height ≤ 0 ∨ img.isNull = true) := by
    rintro (h | h | h)
    · omega
    · omega
    · rw [himg] at h
      exact Bool.false_ne_true h
  have hm : ¬ (resamplingMask.isNull = true) := by
    rw [hmask]
    exact Bool.false_ne_true
  unfold applyResize
  rw [if_neg hguard, if_neg hm]
  simp only []
  obtain ⟨rw_, rh_, rp_⟩ := applyResize_rows (T.ginApplyResize img width height alg)
    (T.rescaled resamplingMask width height ResamplingQuality.lowResamplingQuality)
    (T.ginApplyResize img width height alg).getWidth.toNat
    (T.ginApplyResize img width height alg).getHeight.toNat
    ((Image.create PixelFormat.ARGB (T.ginApplyResize img width height alg).getWidth
      (T.ginApplyResize img width height alg).getHeight true).clear
      (Image.create PixelFormat.ARGB (T.ginApplyResize img width height alg).getWidth
      (T.ginApplyResize img width height alg).getHeight true).getBounds
      Colours.transparentBlack)
  have cw : ((Image.create PixelFormat.ARGB (T.ginApplyResize img width height alg).getWidth
      (T.ginApplyResize img width height alg).getHeight true).clear
      (Image.create PixelFormat.ARGB (T.ginApplyResize img width height alg).getWidth
      (T.ginApplyResize img width height alg).getHeight true).getBounds
      Colours.transparentBlack).getWidth = (T.ginApplyResize img width height alg).getWidth := rfl
  have ch : ((Image.create PixelFormat.ARGB (T.ginApplyResize img width height alg).getWidth
      (T.ginApplyResize img width height alg).getHeight true).clear
      (Image.create PixelFormat.ARGB (T.ginApplyResize img width height alg).getWidth
      (T.ginApplyResize img width height alg).getHeight true).getBounds
      Colours.transparentBlack).getHeight = (T.ginApplyResize img width height alg).getHeight := rfl
  refine ⟨rw_.trans cw, rh_.trans ch, fun x y hx0 hx1 hy0 hy1 => ?_⟩
  rw [rw_, cw] at hx1
  rw [rh_, ch] at hy1
  rw [rp_, cw, ch, Image.getPixelAt_clear_create]
  by_cases hc : ((T.rescaled resamplingMask width height
      ResamplingQuality.lowResamplingQuality).getPixelAt x y).getAlpha > 0
  · have h1 : 0 ≤ y ∧ y < (((T.ginApplyResize img width height alg).getHeight.toNat : Nat) : Int) ∧
        y < (T.ginApplyResize img width height alg).getHeight ∧ 0 ≤ x ∧
        x < (((T.ginApplyResize img width height alg).getWidth.toNat : Nat) : Int) ∧
        x < (T.ginApplyResize img width height alg).getWidth ∧
        ((T.rescaled resamplingMask width height
          ResamplingQuality.lowResamplingQuality).getPixelAt x y).getAlpha > 0 :=
      ⟨hy0, by omega, hy1, hx0, by omega, hx1, hc⟩
    rw [if_pos h1, if_pos hc]
  · have h1 : ¬ (0 ≤ y ∧
        y < (((T.ginApplyResize img width height alg).getHeight.toNat : Nat) : Int) ∧
        y < (T.ginApplyResize img width height alg).getHeight ∧ 0 ≤ x ∧
        x < (((T.ginApplyResize img width height alg).getWidth.toNat : Nat) : Int) ∧
        x < (T.ginApplyResize img width height alg).getWidth ∧
        ((T.rescaled resamplingMask width height
          ResamplingQuality.lowResamplingQuality).getPixelAt x y).getAlpha > 0) :=
      fun h => hc h.2.2.2.2.2.2
    rw [if_neg h1, if_neg hc]

/-! ## Theorems: applyResize -/

/-- C1. For a non-null source image, a non-null mask and positive target
dimensions, the masked `applyResize` returns an image with the dimensions of
the high-quality resize `HQ`; at every position inside it, where the
low-quality scaled mask `M` has alpha 0 the pixel is fully transparent
(transparent black), and where `M` has alpha above 0 the pixel is `HQ`'s. -/
theorem applyResize_masked (T : Toolkit) (img resamplingMask : Image)
    (width height : Int) (alg : ResizeAlgorirm)
    (himg : img.isNull = false) (hmask : resamplingMask.isNull = false)
    (hw : 0 < width) (hh : 0 < height) :
    (applyResize T img resamplingMask width height alg).getWidth
      = (T.ginApplyResize img width height alg).getWidth ∧
    (applyResize T img resamplingMask width height alg).getHeight
      = (T.ginApplyResize img width height alg).getHeight ∧
    ∀ x y : Int, 0 ≤ x → x < (applyResize T img resamplingMask width height alg).getWidth →
      0 ≤ y → y < (applyResize T img resamplingMask width height alg).getHeight →
      (((T.rescaled resamplingMask width height
          ResamplingQuality.lowResamplingQuality).getPixelAt x y).getAlpha = 0 →
        ((applyResize T img resamplingMask width height alg).getPixelAt x y).getAlpha = 0 ∧
        (applyResize T img resamplingMask width height alg).getPixelAt x y
          = Colours.transparentBlack) ∧
      (((T.rescaled resamplingMask width height
          ResamplingQuality.lowResamplingQuality).getPixelAt x y).getAlpha > 0 →
        (applyResize T img resamplingMask width height alg).getPixelAt x y
          = (T.ginApplyResize img width height alg).getPixelAt x y) := by
  obtain ⟨h1, h2, h3⟩ := applyResize_masked_pixels T img resamplingMask width height alg
    himg hmask hw hh
  refine ⟨h1, h2, fun x y hx0 hx1 hy0 hy1 => ⟨fun ha => ?_, fun ha => ?_⟩⟩
  · have hna : ¬ (((T.rescaled resamplingMask width height
        ResamplingQuality.lowResamplingQuality).getPixelAt x y).getAlpha > 0) := by
      rw [ha]
      exact Nat.lt_irrefl 0
    rw [h3 x y hx0 hx1 hy0 hy1, if_neg hna]
    exact ⟨rfl, rfl⟩
  · rw [h3 x y hx0 hx1 hy0 hy1, if_pos ha]

/-- C1, witness: the 4x4 example source resized to 2x2 under the example mask. -/
theorem applyResize_masked_witness :
    (applyResize Example.toolkit Example.source Example.mask 2 2
        ResizeAlgorirm.lanczos).getWidth = 2 ∧
    (applyResize Example.toolkit Example.source Example.mask 2 2
        ResizeAlgorirm.lanczos).getPixelAt 0 1 = ⟨255, 0, 2, 7⟩ ∧
    (applyResize Example.toolkit Example.source Example.mask 2 2
        ResizeAlgorirm.lanczos).getPixelAt 1 1 = Colours.transparentBlack := by
  obtain ⟨h1, _, h3⟩ := applyResize_masked Example.toolkit Example.source Example.mask 2 2
    ResizeAlgorirm.lanczos rfl rfl (by decide) (by decide)
  have hw : (Example.toolkit.ginApplyResize Example.source 2 2
      ResizeAlgorirm.lanczos).getWidth = 2 := rfl
  have hh : (applyResize Example.toolkit Example.source Example.mask 2 2
      ResizeAlgorirm.lanczos).getHeight = 2 := by
    rw [(applyResize_masked Example.toolkit Example.source Example.mask 2 2
      ResizeAlgorirm.lanczos rfl rfl (by decide) (by decide)).2.1]
    rfl
  rw [hw] at h1
  refine ⟨h1, ?_, ?_⟩
  · rw [(h3 0 1 (by decide) (by rw [h1]; decide) (by decide) (by rw [hh]; decide)).2
      (by decide)]
    decide
  · exact ((h3 1 1 (by decide) (by rw [h1]; decide) (by decide) (by rw [hh]; decide)).1
      (by decide)).2

/-- C2, as stated, fails: for target width 0 the example toolkit's resize
returns a (non-null) 0x1 canvas, while `applyResize` with a null mask returns
the null image without calling it. -/
theorem applyResize_null_mask_counterexample :
    applyResize Example.toolkit Example.source Image.null 0 1 ResizeAlgorirm.lanczos
      ≠ Example.toolkit.ginApplyResize Example.source 0 1 ResizeAlgorirm.lanczos := by
  intro h
  have h2 := congrArg Image.isNull h
  revert h2
  decide

/-- C2, amended. For a non-null image and positive target width and height,
`applyResize` with a null mask, and likewise the overload without a mask,
returns exactly what `gin::applyResize` returns for the same image, width,
height and algorithm. -/
theorem applyResize_null_mask (T : Toolkit) (img : Image) (width height : Int)
    (alg : ResizeAlgorirm) (himg : img.isNull = false) (hw : 0 < width) (hh : 0 < height) :
    applyResize T img Image.null width height alg = T.ginApplyResize img width height alg ∧
    applyResizeUnmasked T img width height alg = T.ginApplyResize img width height alg := by
  have hguard : ¬ (width ≤ 0 ∨ height ≤ 0 ∨ img.isNull = true) := by
    rintro (h | h | h)
    · omega
    · omega
    · rw [himg] at h
      exact Bool.false_ne_true h
  constructor
  · unfold applyResize
    rw [if_neg hguard]
    exact if_pos rfl
  · unfold applyResizeUnmasked
    rw [if_neg hguard]

/-- C2 (amended), witness: the example source resized to 2x2 without a mask. -/
theorem applyResize_null_mask_witness :
    applyResize Example.toolkit Example.source Image.null 2 2 ResizeAlgorirm.lanczos
      = Example.toolkit.ginApplyResize Example.source 2 2 ResizeAlgorirm.lanczos ∧
    applyResizeUnmasked Example.toolkit Example.source 2 2 ResizeAlgorirm.lanczos
      = Example.toolkit.ginApplyResize Example.source 2 2 ResizeAlgorirm.lanczos :=
  applyResize_null_mask Example.toolkit Example.source 2 2 ResizeAlgorirm.lanczos rfl
    (by decide) (by decide)

/-! ## Theorems: the resampling job -/

theorem ResamplingJob.run_finished (T : Toolkit) (shouldExit weakValid : Bool) (fuel : Nat)
    (r : DeferredImageResampler) :
    ResamplingJob.run T shouldExit weakValid fuel (JobPc.finished, r) = (JobPc.finished, r) := by
  cases fuel with
  | zero => rfl
  | succ n => simp [ResamplingJob.run]

theorem ResamplingJob.run_succ (T : Toolkit) (shouldExit weakValid : Bool) (fuel : Nat)
    (st : JobPc × DeferredImageResampler) :
    ResamplingJob.run T shouldExit weakValid (fuel + 1) st =
      if st.1 = JobPc.finished then st
      else ResamplingJob.run T shouldExit weakValid fuel
        (ResamplingJob.step T shouldExit weakValid st.1 st.2) := rfl

theorem ResamplingJob.run_loop (T : Toolkit) (m k : Nat) :
    ∀ (i : Nat) (st : DeferredImageResampler), i + k = st.images.length →
      ResamplingJob.run T false true (3 * k + 2 + m) (JobPc.atLoop i, st) =
        (JobPc.finished,
          { st with
            isResamplingDone := true
            resampledImages := st.resampledImages ++ (st.images.drop i).map (fun image =>
              applyResize T image st.resamplingMask st.component.width st.component.height
                defaultResizeAlgorirm) }) := by
  induction k with
  | zero =>
    intro i st hi
    have hlt : ¬ (i < st.images.length) := by omega
    have hdrop : st.images.drop i = [] := List.drop_eq_nil_of_le (by omega)
    have hfuel : 3 * 0 + 2 + m = (m + 1) + 1 := by omega
    rw [hfuel]
    simp [ResamplingJob.run, ResamplingJob.step, hlt, hdrop, ResamplingJob.run_finished]
  | succ k ih =>
    intro i st hi
    have hlt : i < st.images.length := by omega
    have hfuel : 3 * (k + 1) + 2 + m = (((3 * k + 2 + m) + 1) + 1) + 1 := by omega
    rw [hfuel]
    have hstep := ih (i + 1)
      { st with resampledImages := st.resampledImages ++
          [applyResize T (st.images.getD i Image.null) st.resamplingMask st.component.width
            st.component.height defaultResizeAlgorirm] } (by simp only []; omega)
    have hdrop : st.images.drop i = st.images.getD i Image.null :: st.images.drop (i + 1) := by
      rw [List.getD_eq_getElem _ _ hlt]
      exact List.drop_eq_getElem_cons hlt
    rw [ResamplingJob.run_succ, ResamplingJob.run_succ, ResamplingJob.run_succ]
    simp only [ResamplingJob.step, hlt, if_true, if_false]
    simp only [reduceCtorEq, if_false]
    rw [hstep, hdrop]
    simp

theorem ResamplingJob.runJob_eq (T : Toolkit) (this : DeferredImageResampler) :
    ResamplingJob.runJob T this =
      (JobPc.finished,
        { this with
          isResamplingDone := true
          resampledImages := this.images.map (fun image =>
            applyResize T image this.resamplingMask this.component.width
              this.component.height defaultResizeAlgorirm) }) := by
  unfold ResamplingJob.runJob
  have hfuel : 3 * this.images.length + 4 = ((3 * this.images.length + 2 + 0) + 1) + 1 := by
    omega
  rw [hfuel]
  have hloop := ResamplingJob.run_loop T 0 this.images.length 0
    { this with isResamplingDone := false, resampledImages := [] } (by simp)
  have hhead : ResamplingJob.run T false true ((3 * this.images.length + 2 + 0) + 1 + 1)
      (JobPc.atStart, this) =
      ResamplingJob.run T false true (3 * this.images.length + 2 + 0)
        (JobPc.atLoop 0, { this with isResamplingDone := false, resampledImages := [] }) := by
    rw [ResamplingJob.run_succ, ResamplingJob.run_succ]
    simp [ResamplingJob.step]
  rw [hhead, hloop]
  simp

/-- C3. A resampling job that runs on a live resampler without being asked to
exit, the component's size staying what it is, returns; it leaves the
readiness flag true and the result set with one entry per image, entry `i`
being `applyResize (images[i], mask, width, height)`; what the result set held
before is gone, and nothing else of the resampler changes. -/
theorem ResamplingJob.runJob_complete (T : Toolkit) (this : DeferredImageResampler) :
    (ResamplingJob.runJob T this).1 = JobPc.finished ∧
    (ResamplingJob.runJob T this).2.isResamplingDone = true ∧
    (ResamplingJob.runJob T this).2.resampledImages.length = this.images.length ∧
    (∀ i : Nat, i < this.images.length →
      (ResamplingJob.runJob T this).2.resampledImages[i]? =
        some (applyResize T (this.images.getD i Image.null) this.resamplingMask
          this.component.width this.component.height defaultResizeAlgorirm)) ∧
    (ResamplingJob.runJob T this).2 =
      { this with
        isResamplingDone := true
        resampledImages := this.images.map (fun image =>
          applyResize T image this.resamplingMask this.component.width this.component.height
            defaultResizeAlgorirm) } := by
  rw [ResamplingJob.runJob_eq]
  refine ⟨rfl, rfl, by simp, fun i hi => ?_, rfl⟩
  simp only [List.getElem?_map]
  rw [List.getElem?_eq_getElem hi, List.getD_eq_getElem _ _ hi]
  rfl

/-! ## Theorems: drawing and the display scale -/

/-- C9. For an image index below zero or not below the number of tracked
images, `drawImage` renders the "Invalid Image Index" placeholder (the
semi-transparent dark grey fill, then the white label over the local bounds)
and returns: it makes no other call on the context, none that paints the
cached or the source image, and hands the resampler back unchanged. -/
theorem drawImage_invalid_index (T : Toolkit) (this : DeferredImageResampler) (g : Graphics)
    (imageIndex : Int) (h : imageIndex < 0 ∨ imageIndex ≥ (this.images.length : Int)) :
    (drawImage T this g imageIndex).1 = this ∧
    (drawImage T this g imageIndex).2.calls = g.calls ++
      [GraphicsCall.setImageResamplingQuality ResamplingQuality.highResamplingQuality,
       GraphicsCall.fillAll (T.withAlpha Colours.darkgrey (3 / 10)),
       GraphicsCall.setColour Colours.white,
       GraphicsCall.drawText "Invalid Image Index" this.component.getLocalBounds
         Justification.centred true] ∧
    ∀ c ∈ (drawImage T this g imageIndex).2.calls.drop g.calls.length,
      c.paintsImage = false := by
  have hd : drawImage T this g imageIndex = (this, ⟨g.calls ++
      [GraphicsCall.setImageResamplingQuality ResamplingQuality.highResamplingQuality,
       GraphicsCall.fillAll (T.withAlpha Colours.darkgrey (3 / 10)),
       GraphicsCall.setColour Colours.white,
       GraphicsCall.drawText "Invalid Image Index" this.component.getLocalBounds
         Justification.centred true]⟩) := by
    unfold drawImage
    simp only [if_pos h, Graphics.call, List.append_assoc, List.cons_append, List.nil_append]
  rw [hd]
  refine ⟨rfl, rfl, fun c hc => ?_⟩
  simp only [List.drop_left, List.mem_cons, List.mem_singleton, List.not_mem_nil, or_false]
    at hc
  rcases hc with rfl | rfl | rfl | rfl <;> rfl

/-- C9, witness: index 5 with two tracked images, and index -1. -/
theorem drawImage_invalid_index_witness :
    ((5 : Int) < 0 ∨ (5 : Int) ≥ (Example.resamplerA.images.length : Int)) ∧
    (drawImage Example.toolkit Example.resamplerA Example.graphics 5).2.calls =
      Example.graphics.calls ++
      [GraphicsCall.setImageResamplingQuality ResamplingQuality.highResamplingQuality,
       GraphicsCall.fillAll (Example.toolkit.withAlpha Colours.darkgrey (3 / 10)),
       GraphicsCall.setColour Colours.white,
       GraphicsCall.drawText "Invalid Image Index" Example.resamplerA.component.getLocalBounds
         Justification.centred true] ∧
    (drawImage Example.toolkit Example.resamplerA Example.graphics (-1)).1 =
      Example.resamplerA :=
  ⟨by decide,
   (drawImage_invalid_index Example.toolkit Example.resamplerA Example.graphics 5
      (by decide)).2.1,
   (drawImage_invalid_index Example.toolkit Example.resamplerA Example.graphics (-1)
      (by decide)).1⟩

theorem drawImage_stretched (T : Toolkit) (this : DeferredImageResampler) (g : Graphics)
    (imageIndex : Int) (hneed : resamplingNeeded T this.component = false)
    (h0 : 0 ≤ imageIndex) (h1 : imageIndex < (this.images.length : Int)) :
    drawImage T this g imageIndex =
      (this, ⟨g.calls ++
        [GraphicsCall.setImageResamplingQuality ResamplingQuality.highResamplingQuality,
         GraphicsCall.drawImage (this.images.getD imageIndex.toNat Image.null)
           (if this.component.propsContains "floatX" = true ∧
                this.component.propsContains "floatY" = true ∧
                this.component.propsContains "floatW" = true ∧
                this.component.propsContains "floatH" = true then
              ⟨T.toFloat (this.component.prop "floatX"),
               T.toFloat (this.component.prop "floatY"),
               T.toFloat (this.component.prop "floatW"),
               T.toFloat (this.component.prop "floatH")⟩
            else
              ⟨T.toFloat 0, T.toFloat 0, T.toFloat this.component.width,
               T.toFloat this.component.height⟩)
           RectanglePlacement.stretchToFit]⟩) := by
  have hidx : ¬ (imageIndex < 0 ∨ imageIndex ≥ (this.images.length : Int)) := by omega
  have hshould : ¬ (shouldDisplayResampledImages T this = true) := by
    unfold shouldDisplayResampledImages
    rw [hneed]
    simp
  unfold drawImage
  simp only [if_neg hidx, if_neg hshould, Graphics.call, List.append_assoc, List.cons_append,
    List.nil_append, getFloatRect, Rectangle.toFloat, Component.getLocalBounds, Int.cast_zero]

theorem handleResampling_not_needed (T : Toolkit) (id : Nat) (s : System)
    (hneed : resamplingNeeded T (s.resamplers id).component = false) :
    handleResampling T id s = s := by
  unfold handleResampling
  simp only [hneed]
  split_ifs <;> first | rfl | contradiction

theorem resamplingNeeded_of_scale (T : Toolkit) (component : Component) (display : Display)
    (hdisplay : getComponentDisplay T component = some display)
    (hscale : T.approximatelyEqual display.scale 1 = false) :
    resamplingNeeded T component = false := by
  unfold resamplingNeeded
  rw [hdisplay]
  exact hscale

/-- C8, as stated, fails: the component on the scale-2 monitor is 2x2, so its
rectangle is (0, 0, 2, 2), but it carries the properties floatX = 10,
floatY = 20, floatW = 16777217, floatH = 40, and `drawImage` stretches the
source image to the rectangle these give, narrowed to `float`:
(10, 20, 16777216, 40). -/
theorem scale_not_one_counterexample :
    getComponentDisplay Example.toolkit Example.resamplerFloat.component = some ⟨2⟩ ∧
    Example.toolkit.approximatelyEqual 2 1 = false ∧
    Example.resamplerFloat.component.getLocalBounds = ⟨0, 0, 2, 2⟩ ∧
    drawImage Example.toolkit Example.resamplerFloat Example.graphics 0 =
      (Example.resamplerFloat,
        ⟨[GraphicsCall.setImageResamplingQuality ResamplingQuality.highResamplingQuality,
          GraphicsCall.drawImage Example.source ⟨10, 20, 16777216, 40⟩
            RectanglePlacement.stretchToFit]⟩) ∧
    (⟨10, 20, 16777216, 40⟩ : Rectangle Rat) ≠ ⟨0, 0, 2, 2⟩ := by
  have hrect : (if Example.resamplerFloat.component.propsContains "floatX" = true ∧
        Example.resamplerFloat.component.propsContains "floatY" = true ∧
        Example.resamplerFloat.component.propsContains "floatW" = true ∧
        Example.resamplerFloat.component.propsContains "floatH" = true then
      (⟨Example.toolkit.toFloat (Example.resamplerFloat.component.prop "floatX"),
        Example.toolkit.toFloat (Example.resamplerFloat.component.prop "floatY"),
        Example.toolkit.toFloat (Example.resamplerFloat.component.prop "floatW"),
        Example.toolkit.toFloat (Example.resamplerFloat.component.prop "floatH")⟩ :
          Rectangle Rat)
      else
        ⟨Example.toolkit.toFloat 0, Example.toolkit.toFloat 0,
         Example.toolkit.toFloat Example.resamplerFloat.component.width,
         Example.toolkit.toFloat Example.resamplerFloat.component.height⟩) =
      ⟨10, 20, 16777216, 40⟩ := by decide
  refine ⟨by decide, by decide, by decide, ?_, by decide⟩
  rw [drawImage_stretched Example.toolkit Example.resamplerFloat Example.graphics 0
    (by decide) (by decide) (by decide), hrect]
  rfl

/-- C8, amended. When the display resolved for the component has a scale that
is not (approximately) 1.0, `handleResampling` submits no job and changes
nothing, and `drawImage` with any valid index, whatever the readiness flag and
the result set hold, sets the resampling quality and draws the source image
with `stretchToFit`: to the rectangle (floatX, floatY, floatW, floatH) of the
component's properties, each cast to `float`, when all four are present, and
otherwise to the component's local bounds (0, 0, width, height) cast to
`float`. -/
theorem scale_not_one (T : Toolkit) (s : System) (id : Nat) (display : Display)
    (hdisplay : getComponentDisplay T (s.resamplers id).component = some display)
    (hscale : T.approximatelyEqual display.scale 1 = false) :
    handleResampling T id s = s ∧
    (handleResampling T id s).threadPool.jobs = s.threadPool.jobs ∧
    ∀ (this : DeferredImageResampler) (g : Graphics) (imageIndex : Int),
      this.component = (s.resamplers id).component →
      0 ≤ imageIndex → imageIndex < (this.images.length : Int) →
      drawImage T this g imageIndex =
        (this, ⟨g.calls ++
          [GraphicsCall.setImageResamplingQuality ResamplingQuality.highResamplingQuality,
           GraphicsCall.drawImage (this.images.getD imageIndex.toNat Image.null)
             (if this.component.propsContains "floatX" = true ∧
                  this.component.propsContains "floatY" = true ∧
                  this.component.propsContains "floatW" = true ∧
                  this.component.propsContains "floatH" = true then
                ⟨T.toFloat (this.component.prop "floatX"),
                 T.toFloat (this.component.prop "floatY"),
                 T.toFloat (this.component.prop "floatW"),
                 T.toFloat (this.component.prop "floatH")⟩
              else
                ⟨T.toFloat 0, T.toFloat 0, T.toFloat this.component.width,
                 T.toFloat this.component.height⟩)
             RectanglePlacement.stretchToFit]⟩) := by
  have hneed := resamplingNeeded_of_scale T (s.resamplers id).component display hdisplay hscale
  have hh := handleResampling_not_needed T id s hneed
  refine ⟨hh, by rw [hh], fun this g imageIndex hc h0 h1 => ?_⟩
  exact drawImage_stretched T this g imageIndex (by rw [hc]; exact hneed) h0 h1

/-- C8 (amended), witness: the resampler on the scale-2 monitor, flagged ready
with a cached result and without float properties, schedules nothing and
draws its second source image stretched to (0, 0, 2, 2). -/
theorem scale_not_one_witness :
    getComponentDisplay Example.toolkit (Example.systemHiDpi.resamplers 0).component
      = some ⟨2⟩ ∧
    Example.toolkit.approximatelyEqual 2 1 = false ∧
    Example.resamplerHiDpi.isResamplingDone = true ∧
    handleResampling Example.toolkit 0 Example.systemHiDpi = Example.systemHiDpi ∧
    drawImage Example.toolkit Example.resamplerHiDpi Example.graphics 1 =
      (Example.resamplerHiDpi,
        ⟨[GraphicsCall.setImageResamplingQuality ResamplingQuality.highResamplingQuality,
          GraphicsCall.drawImage Example.source ⟨0, 0, 2, 2⟩
            RectanglePlacement.stretchToFit]⟩) := by
  have hrect : (if Example.resamplerHiDpi.component.propsContains "floatX" = true ∧
        Example.resamplerHiDpi.component.propsContains "floatY" = true ∧
        Example.resamplerHiDpi.component.propsContains "floatW" = true ∧
        Example.resamplerHiDpi.component.propsContains "floatH" = true then
      (⟨Example.toolkit.toFloat (Example.resamplerHiDpi.component.prop "floatX"),
        Example.toolkit.toFloat (Example.resamplerHiDpi.component.prop "floatY"),
        Example.toolkit.toFloat (Example.resamplerHiDpi.component.prop "floatW"),
        Example.toolkit.toFloat (Example.resamplerHiDpi.component.prop "floatH")⟩ :
          Rectangle Rat)
      else
        ⟨Example.toolkit.toFloat 0, Example.toolkit.toFloat 0,
         Example.toolkit.toFloat Example.resamplerHiDpi.component.width,
         Example.toolkit.toFloat Example.resamplerHiDpi.component.height⟩) =
      ⟨0, 0, 2, 2⟩ := by decide
  refine ⟨by decide, by decide, rfl,
    (scale_not_one Example.toolkit Example.systemHiDpi 0 ⟨2⟩ (by decide) (by decide)).1, ?_⟩
  rw [(scale_not_one Example.toolkit Example.systemHiDpi 0 ⟨2⟩ (by decide) (by decide)).2.2
    Example.resamplerHiDpi Example.graphics 1 rfl (by decide) (by decide), hrect]
  rfl

/-! ## Theorems: the shared pool -/

theorem run_append (T : Toolkit) (es fs : List Event) (s : System) :
    run T (es ++ fs) s = run T fs (run T es s) := by
  induction es generalizing s with
  | nil => rfl
  | cons e es ih => exact ih (step T e s)

theorem ThreadPool.removeAllJobs_mem (p : ThreadPool) (t : Nat) (j : ResamplingJob)
    (hj : j ∈ (p.removeAllJobs true t).jobs) : j.shouldStop = true ∧ j.isActive = true := by
  simp only [ThreadPool.removeAllJobs, List.mem_filterMap] at hj
  obtain ⟨a, _, ha⟩ := hj
  by_cases hact : a.isActive = true
  · simp only [hact, if_true, Option.some.injEq] at ha
    subst ha
    exact ⟨rfl, rfl⟩
  · simp only [hact] at ha
    exact absurd ha (by simp)

theorem ThreadPool.removeAllJobs_outstanding (p : ThreadPool) (t : Nat) (id : Nat) :
    ((p.removeAllJobs true t).jobs.filter
      (fun job => job.weakResampler == id && !job.shouldStop)).length = 0 := by
  rw [List.length_eq_zero, List.filter_eq_nil_iff]
  intro j hj
  simp [(ThreadPool.removeAllJobs_mem p t j hj).1]

theorem ThreadPool.pickNextJobToRun_outstanding (p : ThreadPool) (id : Nat) :
    (p.pickNextJobToRun.jobs.filter
      (fun job => job.weakResampler == id && !job.shouldStop)).length =
    (p.jobs.filter (fun job => job.weakResampler == id && !job.shouldStop)).length := by
  unfold ThreadPool.pickNextJobToRun
  split_ifs with h
  · rfl
  · cases hjobs : p.jobs with
    | nil => simp [hjobs]
    | cons job rest =>
      simp only [List.filter_cons]
      split_ifs <;> simp

theorem ResamplingJob.step_frame (T : Toolkit) (se wv : Bool) (pc : JobPc)
    (r : DeferredImageResampler) :
    (ResamplingJob.step T se wv pc r).2.timer = r.timer ∧
    (ResamplingJob.step T se wv pc r).2.initialAttemptPending = r.initialAttemptPending ∧
    (ResamplingJob.step T se wv pc r).2.alive = r.alive ∧
    (ResamplingJob.step T se wv pc r).2.component = r.component ∧
    (ResamplingJob.step T se wv pc r).2.images = r.images ∧
    (ResamplingJob.step T se wv pc r).2.resamplingMask = r.resamplingMask := by
  cases pc <;> simp only [ResamplingJob.step] <;> (try split_ifs) <;> simp

theorem jobStep_outstanding (T : Toolkit) (s : System) (id : Nat) :
    outstanding id (jobStep T s) ≤ outstanding id s := by
  unfold jobStep outstanding
  cases hfind : s.threadPool.jobs.find? (fun job => job.isActive) with
  | none => simp
  | some job =>
    simp only []
    split_ifs with hfin
    · simp only [List.filter_filter]
      apply List.Sublist.length_le
      apply List.monotone_filter_right
      intro j hj
      rw [Bool.and_eq_true] at hj
      exact hj.1
    · rw [List.filter_map, List.length_map]
      apply le_of_eq
      congr 1
      apply List.filter_congr
      intro j _
      by_cases hact : j.isActive = true <;> simp [hact]

theorem jobStep_frame (T : Toolkit) (s : System) (id : Nat) :
    ((jobStep T s).resamplers id).timer = (s.resamplers id).timer ∧
    ((jobStep T s).resamplers id).initialAttemptPending
      = (s.resamplers id).initialAttemptPending ∧
    ((jobStep T s).resamplers id).alive = (s.resamplers id).alive := by
  unfold jobStep
  cases hfind : s.threadPool.jobs.find? (fun job => job.isActive) with
  | none => simp
  | some job =>
    simp only []
    by_cases hid : id = job.weakResampler
    · subst hid
      simp only [Function.update_same]
      obtain ⟨h1, h2, h3, _⟩ := ResamplingJob.step_frame T job.shouldStop
        (s.resamplers job.weakResampler).alive job.pc (s.resamplers job.weakResampler)
      exact ⟨h1, h2, h3⟩
    · simp only [Function.update_noteq hid]
      exact ⟨trivial, trivial, trivial⟩

theorem handleResampling_resamplers (T : Toolkit) (id : Nat) (s : System) :
    (handleResampling T id s).resamplers = s.resamplers := by
  unfold handleResampling
  simp only []
  split_ifs <;> rfl

theorem handleResampling_outstanding (T : Toolkit) (id' id : Nat) (s : System) :
    outstanding id (handleResampling T id' s) ≤
      outstanding id s + (if id' = id then 1 else 0) := by
  unfold handleResampling outstanding
  simp only []
  split_ifs <;>
    simp [ThreadPool.addJob, ResamplingJob.create, List.filter_append, List.filter_cons, *]

theorem armed_le_one (id : Nat) (s : System) : armed id s ≤ 1 := by
  unfold armed
  split_ifs <;> omega

theorem handleResampling_other (T : Toolkit) (id id' : Nat) (s : System) (hne : ¬ (id' = id)) :
    outstanding id (handleResampling T id' s) = outstanding id s ∧
    armed id (handleResampling T id' s) = armed id s := by
  unfold handleResampling outstanding armed
  simp only []
  split_ifs <;>
    simp [ThreadPool.addJob, ResamplingJob.create, List.filter_append, List.filter_cons, *]

theorem step_singleFlight (T : Toolkit) (id : Nat) (e : Event) (s : System)
    (hp : (s.resamplers id).initialAttemptPending = false)
    (hs : outstanding id s + armed id s ≤ 1) :
    ((step T e s).resamplers id).initialAttemptPending = false ∧
    outstanding id (step T e s) + armed id (step T e s) ≤ 1 := by
  cases e with
  | initialAttempt id' =>
    simp only [step]
    by_cases hpend : (s.resamplers id').initialAttemptPending = true
    · have hne : id ≠ id' := by
        rintro rfl
        rw [hp] at hpend
        exact Bool.false_ne_true hpend
      have hne' : ¬ (id' = id) := fun h => hne h.symm
      rw [if_pos hpend]
      by_cases halive : (s.resamplers id').alive = true
      · rw [if_pos halive, handleResampling_resamplers,
          (handleResampling_other T id id' _ hne').1, (handleResampling_other T id id' _ hne').2]
        simp only [armed, outstanding, Function.update_noteq hne] at hs ⊢
        exact ⟨hp, hs⟩
      · rw [if_neg halive]
        simp only [armed, outstanding, Function.update_noteq hne] at hs ⊢
        exact ⟨hp, hs⟩
    · rw [if_neg hpend]
      exact ⟨hp, hs⟩
  | movedOrResized id' c wasMoved wasResized =>
    simp only [step]
    by_cases halive : (s.resamplers id').alive = true
    · rw [if_pos halive]
      simp only [componentMovedOrResized]
      cases wasResized with
      | false =>
        simp only [if_true]
        by_cases hid : id = id'
        · subst hid
          simp only [armed, outstanding, Function.update_same] at hs ⊢
          exact ⟨hp, hs⟩
        · simp only [armed, outstanding, Function.update_noteq hid] at hs ⊢
          exact ⟨hp, hs⟩
      | true =>
        simp only [Bool.true_eq_false, if_false]
        have hz := ThreadPool.removeAllJobs_outstanding s.threadPool delayTimeMs id
        by_cases hid : id = id'
        · subst hid
          simp only [armed, outstanding, Function.update_same] at hs ⊢
          refine ⟨hp, ?_⟩
          rw [hz]
          simp
        · have ha := armed_le_one id s
          simp only [armed, outstanding, Function.update_noteq hid] at hs ha ⊢
          refine ⟨hp, ?_⟩
          rw [hz]
          omega
    · rw [if_neg halive]
      exact ⟨hp, hs⟩
  | timerFired id' =>
    simp only [step]
    cases htimer : (s.resamplers id').timer with
    | none => exact ⟨hp, hs⟩
    | some deadline =>
      simp only []
      by_cases halive : (s.resamplers id').alive = true
      · rw [if_pos halive]
        simp only [timerCallback]
        by_cases hid : id = id'
        · subst hid
          have ho := handleResampling_outstanding T id id
            { now := max s.now deadline
              resamplers := Function.update s.resamplers id
                ({ s.resamplers id with timer := none })
              ids := s.ids
              threadPool := s.threadPool
              submissions := s.submissions }
          rw [if_pos rfl] at ho
          rw [handleResampling_resamplers]
          simp only [armed, outstanding, handleResampling_resamplers, Function.update_same,
            htimer, Option.isSome_some, Option.isSome_none, if_true, Bool.false_eq_true,
            if_false] at hs ho ⊢
          refine ⟨hp, ?_⟩
          omega
        · have hne' : ¬ (id' = id) := fun h => hid h.symm
          rw [handleResampling_resamplers,
            (handleResampling_other T id id' _ hne').1,
            (handleResampling_other T id id' _ hne').2]
          simp only [armed, outstanding, Function.update_noteq hid] at hs ⊢
          exact ⟨hp, hs⟩
      · rw [if_neg halive]
        exact ⟨hp, hs⟩
  | destroyed id' =>
    simp only [step]
    by_cases halive : (s.resamplers id').alive = true
    · rw [if_pos halive]
      simp only [destroy]
      have hz := ThreadPool.removeAllJobs_outstanding s.threadPool delayTimeMs id
      have ha := armed_le_one id s
      by_cases hid : id = id'
      · subst hid
        split_ifs
        · simp only [armed, outstanding, Function.update_same] at hs ha ⊢
          refine ⟨hp, ?_⟩
          rw [hz]
          simp
        · simp only [armed, outstanding, Function.update_same] at hs ha ⊢
          refine ⟨hp, ?_⟩
          simp only [Option.isSome_none, Bool.false_eq_true, if_false]
          omega
      · split_ifs
        · simp only [armed, outstanding, Function.update_noteq hid] at hs ha ⊢
          refine ⟨hp, ?_⟩
          rw [hz]
          omega
        · simp only [armed, outstanding, Function.update_noteq hid] at hs ha ⊢
          exact ⟨hp, hs⟩
    · rw [if_neg halive]
      exact ⟨hp, hs⟩
  | elapse ms =>
    simp only [step]
    exact ⟨hp, hs⟩
  | workerPick =>
    simp only [step]
    have h := ThreadPool.pickNextJobToRun_outstanding s.threadPool id
    simp only [armed, outstanding] at hs ⊢
    refine ⟨hp, ?_⟩
    rw [h]
    exact hs
  | jobStep =>
    simp only [step]
    obtain ⟨h1, h2, _⟩ := jobStep_frame T s id
    have h3 := jobStep_outstanding T s id
    refine ⟨h2.trans hp, ?_⟩
    simp only [armed, h1] at hs ⊢
    omega

theorem run_singleFlight (T : Toolkit) (id : Nat) (es : List Event) :
    ∀ s : System, (s.resamplers id).initialAttemptPending = false →
      outstanding id s + armed id s ≤ 1 →
      ((run T es s).resamplers id).initialAttemptPending = false ∧
      outstanding id (run T es s) + armed id (run T es s) ≤ 1 := by
  induction es with
  | nil => exact fun s hp hs => ⟨hp, hs⟩
  | cons e es ih =>
    intro s hp hs
    obtain ⟨hp', hs'⟩ := step_singleFlight T id e s hp hs
    exact ih (step T e s) hp' hs'

theorem handleResampling_adds (T : Toolkit) (id : Nat) (s : System)
    (hw : 0 < (s.resamplers id).component.width) (hh : 0 < (s.resamplers id).component.height)
    (hscale : resamplingNeeded T (s.resamplers id).component = true) :
    handleResampling T id s =
      { s with
        threadPool := ⟨s.threadPool.jobs ++ [ResamplingJob.create id]⟩
        submissions := s.submissions ++ [(s.now, id)] } := by
  have hsize : ¬ ((s.resamplers id).component.width ≤ 0 ∨
      (s.resamplers id).component.height ≤ 0) := by omega
  unfold handleResampling
  simp only [if_neg hsize, hscale, if_true, ThreadPool.addJob]

/-- C4, as stated, fails. (1) A resize before the constructor's deferred
attempt runs arms the timer; the attempt and the timer then each submit a job,
and two jobs of resampler 0, neither told to exit, are queued. (2) A second
`handleResampling` right after the first, with no resize in between, adds a
second job. (3) A resize while a job runs tells it to exit but leaves it in
the pool, and the timer adds a new job beside it. -/
theorem single_flight_counterexample :
    (run Example.toolkit
      [Event.movedOrResized 0 (Example.component 5 5) false true,
       Event.initialAttempt 0, Event.timerFired 0] Example.system).threadPool.jobs
      = [⟨0, false, false, JobPc.atStart⟩, ⟨0, false, false, JobPc.atStart⟩] ∧
    (handleResampling Example.toolkit 0
      (handleResampling Example.toolkit 0 Example.system)).threadPool.jobs
      = [⟨0, false, false, JobPc.atStart⟩, ⟨0, false, false, JobPc.atStart⟩] ∧
    (run Example.toolkit
      [Event.initialAttempt 0, Event.workerPick,
       Event.movedOrResized 0 (Example.component 5 5) false true,
       Event.timerFired 0] Example.system).threadPool.jobs
      = [⟨0, true, true, JobPc.atStart⟩, ⟨0, false, false, JobPc.atStart⟩] := by
  refine ⟨?_, ?_, ?_⟩ <;> decide

/-- C4, amended. From a state in which the resampler's initial deferred
attempt has been handled and it has at most one job not told to exit or an
armed timer (not both), every sequence of events - resize notifications, timer
firings, destructions, worker and job steps, of this or of any other
resampler - leads to a state in which at most one job of this resampler that
has not been told to exit is queued or running, and none while its timer is
armed.  `handleResampling` itself never looks for an outstanding job: with a
positive size and a display scale of 1.0 it appends one job to the pool. -/
theorem single_flight (T : Toolkit) (id : Nat) (s : System) (es : List Event)
    (hp : (s.resamplers id).initialAttemptPending = false)
    (hs : outstanding id s + armed id s ≤ 1) :
    outstanding id (run T es s) ≤ 1 ∧
    outstanding id (run T es s) + armed id (run T es s) ≤ 1 ∧
    ∀ s' : System, 0 < (s'.resamplers id).component.width →
      0 < (s'.resamplers id).component.height →
      resamplingNeeded T (s'.resamplers id).component = true →
      (handleResampling T id s').threadPool.jobs =
        s'.threadPool.jobs ++ [ResamplingJob.create id] := by
  obtain ⟨_, h⟩ := run_singleFlight T id es s hp hs
  refine ⟨by omega, h, fun s' hw hh hscale => ?_⟩
  rw [handleResampling_adds T id s' hw hh hscale]

/-- C4 (amended), witness: resampler 0 after its initial attempt, then two
rounds of resize and timer with the worker running in between. -/
theorem single_flight_witness :
    ((run Example.toolkit [Event.initialAttempt 0] Example.system).resamplers 0
      ).initialAttemptPending = false ∧
    outstanding 0 (run Example.toolkit [Event.initialAttempt 0] Example.system) +
      armed 0 (run Example.toolkit [Event.initialAttempt 0] Example.system) ≤ 1 ∧
    outstanding 0 (run Example.toolkit
      [Event.movedOrResized 0 (Example.component 5 5) false true, Event.timerFired 0,
       Event.workerPick, Event.jobStep, Event.initialAttempt 1,
       Event.movedOrResized 0 (Example.component 6 6) false true, Event.timerFired 0]
      (run Example.toolkit [Event.initialAttempt 0] Example.system)) ≤ 1 :=
  ⟨by decide, by decide,
   (single_flight Example.toolkit 0
      (run Example.toolkit [Event.initialAttempt 0] Example.system)
      [Event.movedOrResized 0 (Example.component 5 5) false true, Event.timerFired 0,
       Event.workerPick, Event.jobStep, Event.initialAttempt 1,
       Event.movedOrResized 0 (Example.component 6 6) false true, Event.timerFired 0]
      (by decide) (by decide)).1⟩

/-- C10, the code at the failing input: resampler 1 has a job queued (or
running); a resize notification delivered to resampler 0 removes it from the
shared pool (or tells it to exit), although resampler 1 was neither resized
nor destroyed, and nothing is left that would schedule a job for it again. -/
theorem shared_pool_resize_cancels_other :
    jobsOf 1 (run Example.toolkit [Event.initialAttempt 1] Example.system) = 1 ∧
    jobsOf 1 (run Example.toolkit
      [Event.initialAttempt 1,
       Event.movedOrResized 0 (Example.component 5 5) false true] Example.system) = 0 ∧
    ((run Example.toolkit
      [Event.initialAttempt 1,
       Event.movedOrResized 0 (Example.component 5 5) false true] Example.system
      ).resamplers 1).alive = true ∧
    ((run Example.toolkit
      [Event.initialAttempt 1,
       Event.movedOrResized 0 (Example.component 5 5) false true] Example.system
      ).resamplers 1).component = Example.component 3 3 ∧
    ((run Example.toolkit
      [Event.initialAttempt 1,
       Event.movedOrResized 0 (Example.component 5 5) false true] Example.system
      ).resamplers 1).timer = none ∧
    ((run Example.toolkit
      [Event.initialAttempt 1,
       Event.movedOrResized 0 (Example.component 5 5) false true] Example.system
      ).resamplers 1).initialAttemptPending = false ∧
    (run Example.toolkit
      [Event.initialAttempt 1, Event.workerPick, Event.jobStep,
       Event.movedOrResized 0 (Example.component 5 5) false true] Example.system
      ).threadPool.jobs = [⟨1, true, true, JobPc.atClear⟩] := by
  refine ⟨?_, ?_, ?_, ?_, ?_, ?_, ?_⟩ <;> decide

/-! ## Theorems: cancellation -/

theorem jobStep_of_find (T : Toolkit) (s : System) (job : ResamplingJob)
    (hfind : s.threadPool.jobs.find? (fun job => job.isActive) = some job) :
    jobStep T s =
      { s with
        resamplers := Function.update s.resamplers job.weakResampler
          (ResamplingJob.step T job.shouldStop (s.resamplers job.weakResampler).alive job.pc
            (s.resamplers job.weakResampler)).2
        threadPool :=
          if (ResamplingJob.step T job.shouldStop (s.resamplers job.weakResampler).alive job.pc
              (s.resamplers job.weakResampler)).1 = JobPc.finished then
            ⟨s.threadPool.jobs.filter (fun j => !j.isActive)⟩
          else
            ⟨s.threadPool.jobs.map (fun j => if j.isActive = true then
              { j with pc := (ResamplingJob.step T job.shouldStop
                (s.resamplers job.weakResampler).alive job.pc
                (s.resamplers job.weakResampler)).1 } else j)⟩ } := by
  unfold jobStep
  rw [hfind]

theorem jobStep_exit (T : Toolkit) (s : System) (job : ResamplingJob)
    (hfind : s.threadPool.jobs.find? (fun job => job.isActive) = some job)
    (hstep : ResamplingJob.step T job.shouldStop (s.resamplers job.weakResampler).alive job.pc
      (s.resamplers job.weakResampler) = (JobPc.finished, s.resamplers job.weakResampler)) :
    (jobStep T s).resamplers = s.resamplers ∧
    (jobStep T s).threadPool.jobs = s.threadPool.jobs.filter (fun j => !j.isActive) := by
  rw [jobStep_of_find T s job hfind, hstep]
  simp only [if_true, Function.update_eq_self]
  exact ⟨trivial, trivial⟩

theorem find?_isActive_map_pc (pc : JobPc) (l : List ResamplingJob) :
    (l.map (fun j => if j.isActive = true then { j with pc := pc } else j)).find?
      (fun job => job.isActive) =
    (l.find? (fun job => job.isActive)).map (fun j => { j with pc := pc }) := by
  induction l with
  | nil => rfl
  | cons a l ih =>
    by_cases ha : a.isActive = true
    · simp [List.find?_cons, ha]
    · simp only [List.map_cons, List.find?_cons, ha, if_false, Bool.false_eq_true]
      simpa using ih

theorem filter_not_isActive_map_pc (pc : JobPc) (l : List ResamplingJob) :
    (l.map (fun j => if j.isActive = true then { j with pc := pc } else j)).filter
      (fun j => !j.isActive) = l.filter (fun j => !j.isActive) := by
  induction l with
  | nil => rfl
  | cons a l ih =>
    by_cases ha : a.isActive = true
    · simp only [List.map_cons, ha, if_true, List.filter_cons, Bool.not_true,
        Bool.false_eq_true, if_false]
      exact ih
    · simp only [List.map_cons, ha, if_false, List.filter_cons, Bool.false_eq_true]
      simp only [Bool.not_eq_true] at ha
      simp only [ha, Bool.not_false, if_true, List.cons.injEq, true_and]
      exact ih

theorem jobStep_in_resample (T : Toolkit) (s : System) (job : ResamplingJob) (i : Nat)
    (w h : Int)
    (hfind : s.threadPool.jobs.find? (fun job => job.isActive) = some job)
    (hstop : job.shouldStop = true) (hpc : job.pc = JobPc.inResample i w h)
    (hi : i + 1 < (s.resamplers job.weakResampler).images.length) :
    (run T [Event.jobStep, Event.jobStep] s).resamplers =
      Function.update s.resamplers job.weakResampler
        { s.resamplers job.weakResampler with
          resampledImages := (s.resamplers job.weakResampler).resampledImages ++
            [applyResize T ((s.resamplers job.weakResampler).images.getD i Image.null)
              (s.resamplers job.weakResampler).resamplingMask w h defaultResizeAlgorirm] } ∧
    (run T [Event.jobStep, Event.jobStep] s).threadPool.jobs =
      s.threadPool.jobs.filter (fun j => !j.isActive) := by
  have h1 : jobStep T s =
      { s with
        resamplers := Function.update s.resamplers job.weakResampler
          { s.resamplers job.weakResampler with
            resampledImages := (s.resamplers job.weakResampler).resampledImages ++
              [applyResize T ((s.resamplers job.weakResampler).images.getD i Image.null)
                (s.resamplers job.weakResampler).resamplingMask w h defaultResizeAlgorirm] }
        threadPool := ⟨s.threadPool.jobs.map (fun j => if j.isActive = true then
          { j with pc := JobPc.atLoop (i + 1) } else j)⟩ } := by
    rw [jobStep_of_find T s job hfind, hpc]
    simp [ResamplingJob.step]
  have hfind2 : (jobStep T s).threadPool.jobs.find? (fun job => job.isActive) =
      some { job with pc := JobPc.atLoop (i + 1) } := by
    rw [h1]
    simp only [find?_isActive_map_pc, hfind, Option.map_some']
  obtain ⟨e1, e2⟩ := jobStep_exit T (jobStep T s) { job with pc := JobPc.atLoop (i + 1) }
    hfind2 (by
      rw [h1]
      simp only [Function.update_same, hstop, ResamplingJob.step, hi, if_true])
  simp only [run, step]
  rw [e1, e2, h1]
  exact ⟨rfl, filter_not_isActive_map_pc _ _⟩

/-- After a resize notification, a job that was in the middle of resampling
the last image still appends it and then sets the flag: the poll of
`shouldExit` sits only at the head of the loop. -/
theorem stale_flag (T : Toolkit) (s : System) (id i : Nat) (w h : Int) (c : Component)
    (wasMoved : Bool)
    (hjobs : s.threadPool.jobs = [⟨id, false, true, JobPc.inResample i w h⟩])
    (halive : (s.resamplers id).alive = true)
    (hlen : (s.resamplers id).images.length = i + 1) :
    ((run T [Event.movedOrResized id c wasMoved true, Event.jobStep, Event.jobStep,
        Event.jobStep] s).resamplers id).isResamplingDone = true ∧
    ((run T [Event.movedOrResized id c wasMoved true, Event.jobStep, Event.jobStep,
        Event.jobStep] s).resamplers id).component = c ∧
    ((run T [Event.movedOrResized id c wasMoved true, Event.jobStep, Event.jobStep,
        Event.jobStep] s).resamplers id).timer = some (s.now + delayTimeMs) ∧
    ((run T [Event.movedOrResized id c wasMoved true, Event.jobStep, Event.jobStep,
        Event.jobStep] s).resamplers id).resampledImages =
      (s.resamplers id).resampledImages ++
        [applyResize T ((s.resamplers id).images.getD i Image.null)
          (s.resamplers id).resamplingMask w h defaultResizeAlgorirm] ∧
    (run T [Event.movedOrResized id c wasMoved true, Event.jobStep, Event.jobStep,
        Event.jobStep] s).threadPool.jobs = [] := by
  have hnlt : ¬ (i + 1 < i + 1) := Nat.lt_irrefl _
  simp [run, step, halive, componentMovedOrResized, ThreadPool.removeAllJobs, hjobs, jobStep,
    ResamplingJob.step, hlen, hnlt]

/-- C6, the code at the failing input: resampler 1 (one image, component 3x3)
has its job inside `applyResize` for that image when the component is resized
to 5x5.  The notification clears the flag, tells the job to exit and arms the
timer; the job appends the 3x3 result, leaves the loop without another poll
and sets the flag.  The flag is then true although a resize has happened, no
job for the new size has run (the timer is still armed), the pass was told to
exit, and the cached image has the old size. -/
theorem readiness_flag_set_after_resize :
    ((run Example.toolkit
      ([Event.initialAttempt 1, Event.workerPick, Event.jobStep, Event.jobStep, Event.jobStep,
        Event.jobStep] ++
       [Event.movedOrResized 1 (Example.component 5 5) false true, Event.jobStep,
        Event.jobStep, Event.jobStep]) Example.system).resamplers 1).isResamplingDone = true ∧
    ((run Example.toolkit
      ([Event.initialAttempt 1, Event.workerPick, Event.jobStep, Event.jobStep, Event.jobStep,
        Event.jobStep] ++
       [Event.movedOrResized 1 (Example.component 5 5) false true, Event.jobStep,
        Event.jobStep, Event.jobStep]) Example.system).resamplers 1).component.width = 5 ∧
    ((run Example.toolkit
      ([Event.initialAttempt 1, Event.workerPick, Event.jobStep, Event.jobStep, Event.jobStep,
        Event.jobStep] ++
       [Event.movedOrResized 1 (Example.component 5 5) false true, Event.jobStep,
        Event.jobStep, Event.jobStep]) Example.system).resamplers 1).timer = some 500 ∧
    (((run Example.toolkit
      ([Event.initialAttempt 1, Event.workerPick, Event.jobStep, Event.jobStep, Event.jobStep,
        Event.jobStep] ++
       [Event.movedOrResized 1 (Example.component 5 5) false true, Event.jobStep,
        Event.jobStep, Event.jobStep]) Example.system).resamplers 1).resampledImages.map
          Image.getWidth) = [3] ∧
    (run Example.toolkit
      [Event.initialAttempt 1, Event.workerPick, Event.jobStep, Event.jobStep, Event.jobStep,
        Event.jobStep, Event.movedOrResized 1 (Example.component 5 5) false true]
      Example.system).threadPool.jobs = [⟨1, true, true, JobPc.inResample 0 3 3⟩] := by
  have hjobs : (run Example.toolkit
      [Event.initialAttempt 1, Event.workerPick, Event.jobStep, Event.jobStep, Event.jobStep,
        Event.jobStep] Example.system).threadPool.jobs
      = [⟨1, false, true, JobPc.inResample 0 3 3⟩] := by decide
  have halive : ((run Example.toolkit
      [Event.initialAttempt 1, Event.workerPick, Event.jobStep, Event.jobStep, Event.jobStep,
        Event.jobStep] Example.system).resamplers 1).alive = true := by decide
  have hlen : ((run Example.toolkit
      [Event.initialAttempt 1, Event.workerPick, Event.jobStep, Event.jobStep, Event.jobStep,
        Event.jobStep] Example.system).resamplers 1).images.length = 0 + 1 := by decide
  have hnow : (run Example.toolkit
      [Event.initialAttempt 1, Event.workerPick, Event.jobStep, Event.jobStep, Event.jobStep,
        Event.jobStep] Example.system).now = 0 := by decide
  have hold : (((run Example.toolkit
      [Event.initialAttempt 1, Event.workerPick, Event.jobStep, Event.jobStep, Event.jobStep,
        Event.jobStep] Example.system).resamplers 1).resampledImages ++
        [applyResize Example.toolkit
          (((run Example.toolkit
            [Event.initialAttempt 1, Event.workerPick, Event.jobStep, Event.jobStep,
              Event.jobStep, Event.jobStep] Example.system).resamplers 1).images.getD 0
            Image.null)
          ((run Example.toolkit
            [Event.initialAttempt 1, Event.workerPick, Event.jobStep, Event.jobStep,
              Event.jobStep, Event.jobStep] Example.system).resamplers 1).resamplingMask 3 3
          defaultResizeAlgorirm]).map Image.getWidth = [3] := by decide
  obtain ⟨h1, h2, h3, h4, _⟩ := stale_flag Example.toolkit _ 1 0 3 3 (Example.component 5 5)
    false hjobs halive hlen
  rw [run_append]
  refine ⟨h1, ?_, ?_, ?_, by decide⟩
  · rw [h2]
    rfl
  · rw [h3, hnow]
    rfl
  · rw [h4]
    exact hold

/-- C7, as stated, fails: resampler 0 (two images) has its job inside
`applyResize` for image 0 when it is resized.  The job has been told to exit,
yet its next stretch appends the image to the result set. -/
theorem cancelled_job_counterexample :
    (run Example.toolkit
      [Event.initialAttempt 0, Event.workerPick, Event.jobStep, Event.jobStep, Event.jobStep,
        Event.jobStep, Event.movedOrResized 0 (Example.component 5 5) false true]
      Example.system).threadPool.jobs = [⟨0, true, true, JobPc.inResample 0 2 2⟩] ∧
    ((run Example.toolkit
      [Event.initialAttempt 0, Event.workerPick, Event.jobStep, Event.jobStep, Event.jobStep,
        Event.jobStep, Event.movedOrResized 0 (Example.component 5 5) false true]
      Example.system).resamplers 0).resampledImages.length = 0 ∧
    ((run Example.toolkit
      [Event.initialAttempt 0, Event.workerPick, Event.jobStep, Event.jobStep, Event.jobStep,
        Event.jobStep, Event.movedOrResized 0 (Example.component 5 5) false true,
        Event.jobStep]
      Example.system).resamplers 0).resampledImages.length = 1 := by
  refine ⟨?_, ?_, ?_⟩ <;> decide

/-- C7, amended. A size-changing resize notification to a live resampler
removes every queued job and tells every running job to exit.  A job that has
been told to exit returns at its next poll - at its start, or at the head of
the loop before the next image - without writing to any resampler, and leaves
the pool; so does a job that starts after its resampler was destroyed.  A job
told to exit while inside `applyResize` for an image that is not the last
appends that one image and then returns at the poll. -/
theorem cancelled_job (T : Toolkit) (s : System) (id : Nat) (c : Component) (wasMoved : Bool)
    (halive : (s.resamplers id).alive = true) :
    (∀ j ∈ (step T (Event.movedOrResized id c wasMoved true) s).threadPool.jobs,
      j.shouldStop = true ∧ j.isActive = true) ∧
    (∀ (s' : System) (job : ResamplingJob),
      s'.threadPool.jobs.find? (fun job => job.isActive) = some job →
      job.shouldStop = true →
      (job.pc = JobPc.atStart ∨
        ∃ i, job.pc = JobPc.atLoop i ∧ i < (s'.resamplers job.weakResampler).images.length) →
      (step T Event.jobStep s').resamplers = s'.resamplers ∧
      (step T Event.jobStep s').threadPool.jobs =
        s'.threadPool.jobs.filter (fun j => !j.isActive)) ∧
    (∀ (s' : System) (job : ResamplingJob),
      s'.threadPool.jobs.find? (fun job => job.isActive) = some job →
      job.pc = JobPc.atStart → (s'.resamplers job.weakResampler).alive = false →
      (step T Event.jobStep s').resamplers = s'.resamplers ∧
      (step T Event.jobStep s').threadPool.jobs =
        s'.threadPool.jobs.filter (fun j => !j.isActive)) ∧
    (∀ (s' : System) (job : ResamplingJob) (i : Nat) (w h : Int),
      s'.threadPool.jobs.find? (fun job => job.isActive) = some job →
      job.shouldStop = true → job.pc = JobPc.inResample i w h →
      i + 1 < (s'.resamplers job.weakResampler).images.length →
      (run T [Event.jobStep, Event.jobStep] s').resamplers =
        Function.update s'.resamplers job.weakResampler
          { s'.resamplers job.weakResampler with
            resampledImages := (s'.resamplers job.weakResampler).resampledImages ++
              [applyResize T ((s'.resamplers job.weakResampler).images.getD i Image.null)
                (s'.resamplers job.weakResampler).resamplingMask w h defaultResizeAlgorirm] } ∧
      (run T [Event.jobStep, Event.jobStep] s').threadPool.jobs =
        s'.threadPool.jobs.filter (fun j => !j.isActive)) := by
  refine ⟨fun j hj => ?_, fun s' job hfind hstop hpc => ?_, fun s' job hfind hpc hdead => ?_,
    fun s' job i w h hfind hstop hpc hi => jobStep_in_resample T s' job i w h hfind hstop hpc hi⟩
  · simp only [step, halive, if_true, componentMovedOrResized, Bool.true_eq_false,
      if_false] at hj
    exact ThreadPool.removeAllJobs_mem _ _ j hj
  · apply jobStep_exit T s' job hfind
    rcases hpc with hpc | ⟨i, hpc, hi⟩
    · rw [hpc, hstop]
      rfl
    · rw [hpc, hstop]
      simp only [ResamplingJob.step, hi, if_true]
  · apply jobStep_exit T s' job hfind
    rw [hpc, hdead]
    simp only [ResamplingJob.step]
    split_ifs with h1 h2
    · rfl
    · exact h2.elim
    · rfl

/-- C7 (amended), witness: resampler 0 is resized while its job is running at
the head of the loop for image 0. -/
theorem cancelled_job_witness :
    ((run Example.toolkit
      [Event.initialAttempt 0, Event.workerPick, Event.jobStep, Event.jobStep]
      Example.system).resamplers 0).alive = true ∧
    (run Example.toolkit
      [Event.initialAttempt 0, Event.workerPick, Event.jobStep, Event.jobStep]
      Example.system).threadPool.jobs = [⟨0, false, true, JobPc.atLoop 0⟩] ∧
    (step Example.toolkit Event.jobStep
      (step Example.toolkit (Event.movedOrResized 0 (Example.component 5 5) false true)
        (run Example.toolkit
          [Event.initialAttempt 0, Event.workerPick, Event.jobStep, Event.jobStep]
          Example.system))).resamplers =
    (step Example.toolkit (Event.movedOrResized 0 (Example.component 5 5) false true)
        (run Example.toolkit
          [Event.initialAttempt 0, Event.workerPick, Event.jobStep, Event.jobStep]
          Example.system)).resamplers :=
  ⟨by decide, by decide,
   ((cancelled_job Example.toolkit
      (run Example.toolkit
        [Event.initialAttempt 0, Event.workerPick, Event.jobStep, Event.jobStep]
        Example.system) 0 (Example.component 5 5) false (by decide)).2.1
      (step Example.toolkit (Event.movedOrResized 0 (Example.component 5 5) false true)
        (run Example.toolkit
          [Event.initialAttempt 0, Event.workerPick, Event.jobStep, Event.jobStep]
          Example.system))
      ⟨0, true, true, JobPc.atLoop 0⟩ (by decide) rfl
      (Or.inr ⟨0, rfl, by decide⟩)).1⟩

/-! ## Theorems: the debounce timer -/

end BogrenDigital.ImageResampler
